import Mathlib

/-!
Verification of the approval-gated JIRA workflow.

The development shallowly embeds the approval registry
(`approval/approval_manager.py`), the approval-gated operation layer
(`tools/jira_operations_approved.py`) and the workflow dispatcher
(`graphs/jira_agent_graph.py`).  Pure functions become Lean functions;
the process-wide mutable registry becomes explicit state passing on
`ManagerState`; the external JIRA client and LLM are parameters
(`AgentEnv`, `backend`), and the external calls a function would issue
are returned as `JiraCall` descriptors or recorded in an effect trace.
Python exceptions become `Except.error` results.
-/

namespace JiraAutomation

/-- Dynamic values stored in preview dictionaries: Python strings, lists of
strings, and `None`. -/
inductive PVal where
  | str (v : String)
  | strs (v : List String)
  | null
  deriving DecidableEq, Repr

/-- A preview is a Python dict `field -> value`, embedded as an association
list (insertion order, unique keys by construction). -/
abbrev Preview := List (String × PVal)

/-- Python `d.get(k, default)` on a preview dict. -/
def pgetD (p : Preview) (k : String) (d : PVal) : PVal :=
  match p.find? (fun kv => kv.1 == k) with
  | some kv => kv.2
  | none => d

/-- Python `d.get(k)` (and `d[k]` at call sites where the module itself built
the dict, so the key is present). -/
def pget (p : Preview) (k : String) : PVal :=
  pgetD p k PVal.null

/-- Embed an optional Python string value. -/
def opv : Option String → PVal
  | some s => PVal.str s
  | none => PVal.null

/-- Python truthiness of a dynamic value (`None`, `""` and `[]` are falsy). -/
def truthy : PVal → Bool
  | PVal.str s => s ≠ ""
  | PVal.strs l => l ≠ []
  | PVal.null => false

/-- Python truthiness of an optional string (`None` and `""` are falsy). -/
def optTruthy : Option String → Bool
  | some s => s ≠ ""
  | none => false

/-- Python `a or d` for an optional string `a` and string default `d`. -/
def pyOr (a : Option String) (d : String) : String :=
  match a with
  | some s => if s = "" then d else s
  | none => d

/-- Python `sep.join(items)`. -/
def joinSep (sep : String) : List String → String
  | [] => ""
  | [x] => x
  | x :: y :: rest => x ++ sep ++ joinSep sep (y :: rest)

/-- Render a dynamic value into message text (Python `str()`; quoting of list
elements is simplified). -/
def pvalStr : PVal → String
  | PVal.str s => s
  | PVal.strs l => "[" ++ joinSep ", " l ++ "]"
  | PVal.null => "None"

/-- Render an optional string the way a Python f-string renders `None`. -/
def optStr : Option String → String
  | some s => s
  | none => "None"

/-- `ApprovalStatus` enum of `approval_manager.py`. -/
inductive ApprovalStatus where
  | pending
  | approved
  | rejected
  | expired
  deriving DecidableEq, Repr

/-- The `ApprovalRequest` dataclass of `approval_manager.py` (the
`created_at` timestamp is not modelled; no claim mentions it). -/
structure ApprovalRequest where
  request_id : String
  operation_type : String
  ticket_key : Option String
  preview : Preview
  description : String
  status : ApprovalStatus
  approved_by : Option String
  rejection_reason : Option String
  deriving DecidableEq, Repr

/-- State of the `ApprovalManager`: the `pending_approvals` dict (association
list in insertion order), the append-only `approval_history` list, and a
counter supplying fresh identifiers (modelling `uuid.uuid4()`, whose only
relevant property is global freshness). -/
structure ManagerState where
  pending_approvals : List (String × ApprovalRequest)
  approval_history : List ApprovalRequest
  next_id : Nat
  deriving DecidableEq, Repr

/-- A freshly generated opaque identifier (stands for `str(uuid.uuid4())`). -/
def freshId (n : Nat) : String :=
  String.mk (List.replicate (n + 1) 'u')

/-- The state of the module-level `approval_manager = ApprovalManager()`. -/
def emptyManager : ManagerState :=
  { pending_approvals := [], approval_history := [], next_id := 0 }

/-- Dict lookup in `pending_approvals` (Python `self.pending_approvals.get(id)`,
also `id in self.pending_approvals` via `isSome`). -/
def pendingLookup (st : ManagerState) (id : String) : Option ApprovalRequest :=
  (st.pending_approvals.find? (fun kv => kv.1 == id)).map (fun kv => kv.2)

/-- Linear scan of `approval_history` returning the first entry with the given
id, as the Python `for` loops do. -/
def historyLookup (st : ManagerState) (id : String) : Option ApprovalRequest :=
  st.approval_history.find? (fun r => r.request_id == id)

/-- `ApprovalManager.create_approval_request`: mint a fresh id, build a
pending request, insert it into `pending_approvals`. -/
def create_approval_request (st : ManagerState) (operation_type : String)
    (preview : Preview) (description : String) (ticket_key : Option String) :
    ApprovalRequest × ManagerState :=
  let request_id := freshId st.next_id
  let approval : ApprovalRequest :=
    { request_id := request_id, operation_type := operation_type,
      ticket_key := ticket_key, preview := preview, description := description,
      status := ApprovalStatus.pending, approved_by := none,
      rejection_reason := none }
  (approval,
    { pending_approvals := st.pending_approvals ++ [(request_id, approval)],
      approval_history := st.approval_history,
      next_id := st.next_id + 1 })

/-- `ApprovalManager.approve`: `False` and unchanged state when the id is not
pending; otherwise set status/approver and move the entry to history. -/
def approve (st : ManagerState) (request_id : String) (approved_by : String) :
    Bool × ManagerState :=
  match pendingLookup st request_id with
  | none => (false, st)
  | some approval =>
    let approval :=
      { approval with
        status := ApprovalStatus.approved
        approved_by := some approved_by }
    (true,
      { pending_approvals :=
          st.pending_approvals.filter (fun kv => kv.1 != request_id),
        approval_history := st.approval_history ++ [approval],
        next_id := st.next_id })

/-- `ApprovalManager.reject`: symmetric to `approve`. -/
def reject (st : ManagerState) (request_id : String) (reason : String)
    (rejected_by : String) : Bool × ManagerState :=
  match pendingLookup st request_id with
  | none => (false, st)
  | some approval =>
    let approval :=
      { approval with
        status := ApprovalStatus.rejected
        rejection_reason := some reason
        approved_by := some rejected_by }
    (true,
      { pending_approvals :=
          st.pending_approvals.filter (fun kv => kv.1 != request_id),
        approval_history := st.approval_history ++ [approval],
        next_id := st.next_id })

/-- `ApprovalManager.get_approval` (pending collection only). -/
def get_approval (st : ManagerState) (request_id : String) :
    Option ApprovalRequest :=
  pendingLookup st request_id

/-- `ApprovalManager.is_approved`: check pending first, then scan history. -/
def is_approved (st : ManagerState) (request_id : String) : Bool :=
  match get_approval st request_id with
  | some approval => approval.status == ApprovalStatus.approved
  | none =>
    match historyLookup st request_id with
    | some hist => hist.status == ApprovalStatus.approved
    | none => false

/-- `ApprovalManager.get_pending_approvals`. -/
def get_pending_approvals (st : ManagerState) : List ApprovalRequest :=
  st.pending_approvals.map (fun kv => kv.2)

/-- One registry operation, used to quantify over arbitrary sequences of
registry activity. -/
inductive RegOp where
  | createReq (operation_type : String) (preview : Preview)
      (description : String) (ticket_key : Option String)
  | approveReq (request_id : String) (approved_by : String)
  | rejectReq (request_id : String) (reason : String) (rejected_by : String)

/-- Apply one registry operation to the state. -/
def applyOp (st : ManagerState) : RegOp → ManagerState
  | RegOp.createReq op p d tk => (create_approval_request st op p d tk).2
  | RegOp.approveReq id u => (approve st id u).2
  | RegOp.rejectReq id r u => (reject st id r u).2

/-- Apply a sequence of registry operations. -/
def runOps (st : ManagerState) (ops : List RegOp) : ManagerState :=
  ops.foldl applyOp st

/-- Python `s[:n]` (string slicing). -/
def strTake (s : String) (n : Nat) : String :=
  String.mk (s.data.take n)

/-- Descriptor of one external mutating JIRA-client call, with the dynamic
values the Python code passes (`tools/jira_operations.py` signatures).
Returning such a descriptor models invoking the call. -/
inductive JiraCall where
  | createTicket (project_key summary description issue_type assignee priority
      labels custom_fields : PVal)
  | updateTicket (ticket_key summary description assignee status priority
      labels custom_fields : PVal)
  | transitionTicket (ticket_key target_status comment : PVal)
  | assignTicket (ticket_key assignee : PVal)
  | addComment (ticket_key comment_body visibility : PVal)
  deriving DecidableEq, Repr

/-- Result of an external mutating call: `create_ticket` returns a ticket key,
the other operations return a boolean. -/
inductive BackendResult where
  | key (s : String)
  | flag (b : Bool)
  deriving DecidableEq, Repr

/-- Python truthiness of a backend result (`if success:`). -/
def bTruthy : BackendResult → Bool
  | BackendResult.key s => s ≠ ""
  | BackendResult.flag b => b

/-- Render a backend result into message text. -/
def bStr : BackendResult → String
  | BackendResult.key s => s
  | BackendResult.flag b => cond b "True" "False"

/-- `create_ticket_with_approval` of `jira_operations_approved.py`: build the
preview, register a pending approval request, create no ticket. -/
def create_ticket_with_approval (st : ManagerState)
    (project_key summary description issue_type : String)
    (assignee priority : Option String) (labels : Option (List String)) :
    ApprovalRequest × ManagerState :=
  let preview : Preview :=
    [("project", PVal.str project_key),
     ("summary", PVal.str summary),
     ("description", PVal.str description),
     ("issue_type", PVal.str issue_type),
     ("assignee", PVal.str (pyOr assignee "Unassigned")),
     ("priority", PVal.str (pyOr priority "Medium")),
     ("labels", PVal.strs (match labels with | some l => l | none => []))]
  let description_text :=
    "Create new " ++ issue_type ++ " ticket in project " ++ project_key
  create_approval_request st "create_ticket" preview description_text none

/-- `execute_create_ticket`: authorization guard, then dispatch the external
create call with the stored preview fields.  An `Except.error` result models
the raised `ValueError` (no external call happens). -/
def execute_create_ticket (st : ManagerState) (approval_request_id : String) :
    Except String JiraCall :=
  if is_approved st approval_request_id = false then
    Except.error ("Approval request " ++ approval_request_id ++ " not approved")
  else
    let approval? :=
      match get_approval st approval_request_id with
      | some a => some a
      | none => historyLookup st approval_request_id
    match approval? with
    | none =>
      Except.error ("Approval request " ++ approval_request_id ++ " not approved")
    | some approval =>
      if approval.status ≠ ApprovalStatus.approved then
        Except.error ("Approval request " ++ approval_request_id ++ " not approved")
      else
        let preview := approval.preview
        Except.ok (JiraCall.createTicket
          (pget preview "project")
          (pget preview "summary")
          (pget preview "description")
          (pgetD preview "issue_type" (PVal.str "Task"))
          (if pget preview "assignee" ≠ PVal.str "Unassigned" then
            pget preview "assignee" else PVal.null)
          (pget preview "priority")
          (pget preview "labels")
          (pget preview "custom_fields"))

/-- `update_ticket_with_approval`: the read-only fetch of current ticket state
is passed in as `fetched`; a fetch failure degrades to an empty current view
(the Python `try`/`except` around `get_ticket_details`). -/
def update_ticket_with_approval (st : ManagerState) (ticket_key : Option String)
    (summary description assignee status priority : Option String)
    (labels : Option (List String))
    (fetched : Except String Preview) : ApprovalRequest × ManagerState :=
  let current : Preview := match fetched with
    | Except.ok d => d
    | Except.error _ => []
  let preview : Preview :=
    [("ticket_key", opv ticket_key),
     ("current_summary", pget current "summary"),
     ("new_summary", opv summary),
     ("current_description",
       if truthy (pget current "description") then
         PVal.str (strTake (pvalStr (pgetD current "description" (PVal.str ""))) 100 ++ "...")
       else PVal.null),
     ("new_description",
       match description with
       | some d => if d ≠ "" then PVal.str (strTake d 100 ++ "...") else PVal.null
       | none => PVal.null),
     ("current_assignee", pget current "assignee"),
     ("new_assignee", opv assignee),
     ("current_status", pget current "status"),
     ("new_status", opv status),
     ("current_priority", pget current "priority"),
     ("new_priority", opv priority),
     ("current_labels", pgetD current "labels" (PVal.strs [])),
     ("new_labels", match labels with | some l => PVal.strs l | none => PVal.null)]
  let changes : List String :=
    (if optTruthy summary && (pget current "summary" != opv summary) then
      ["Summary: " ++ pvalStr (pget current "summary") ++ " -> " ++ optStr summary]
    else []) ++
    (if optTruthy assignee && (pget current "assignee" != opv assignee) then
      ["Assignee: " ++ pvalStr (pget current "assignee") ++ " -> " ++ optStr assignee]
    else []) ++
    (if optTruthy status && (pget current "status" != opv status) then
      ["Status: " ++ pvalStr (pget current "status") ++ " -> " ++ optStr status]
    else []) ++
    (if optTruthy priority && (pget current "priority" != opv priority) then
      ["Priority: " ++ pvalStr (pget current "priority") ++ " -> " ++ optStr priority]
    else [])
  let description_text :=
    "Update ticket " ++ optStr ticket_key ++ "\nChanges:\n" ++
      joinSep "\n" (changes.map (fun c => "  - " ++ c))
  create_approval_request st "update_ticket" preview description_text ticket_key

/-- `execute_update_ticket`: authorization guard, then dispatch the external
update call with the stored preview fields. -/
def execute_update_ticket (st : ManagerState) (approval_request_id : String) :
    Except String JiraCall :=
  if is_approved st approval_request_id = false then
    Except.error ("Approval request " ++ approval_request_id ++ " not approved")
  else
    let approval? :=
      match get_approval st approval_request_id with
      | some a => some a
      | none => historyLookup st approval_request_id
    match approval? with
    | none =>
      Except.error ("Approval request " ++ approval_request_id ++ " not approved")
    | some approval =>
      if approval.status ≠ ApprovalStatus.approved then
        Except.error ("Approval request " ++ approval_request_id ++ " not approved")
      else
        let preview := approval.preview
        Except.ok (JiraCall.updateTicket
          (pget preview "ticket_key")
          (pget preview "new_summary")
          (pget preview "new_description")
          (pget preview "new_assignee")
          (pget preview "new_status")
          (pget preview "new_priority")
          (pget preview "new_labels")
          (pget preview "custom_fields"))

/-- `transition_ticket_with_approval` (fetch failure degrades to an empty
current view). -/
def transition_ticket_with_approval (st : ManagerState)
    (ticket_key target_status comment : Option String)
    (fetched : Except String Preview) : ApprovalRequest × ManagerState :=
  let current : Preview := match fetched with
    | Except.ok d => d
    | Except.error _ => []
  let preview : Preview :=
    [("ticket_key", opv ticket_key),
     ("current_status", pget current "status"),
     ("target_status", opv target_status),
     ("comment", opv comment)]
  let base :=
    "Transition ticket " ++ optStr ticket_key ++ " from " ++
      pvalStr (pget current "status") ++ " to " ++ optStr target_status
  let description_text :=
    match comment with
    | some c => if c ≠ "" then base ++ "\nComment: " ++ c else base
    | none => base
  create_approval_request st "transition_ticket" preview description_text
    ticket_key

/-- `execute_transition_ticket`. -/
def execute_transition_ticket (st : ManagerState)
    (approval_request_id : String) : Except String JiraCall :=
  if is_approved st approval_request_id = false then
    Except.error ("Approval request " ++ approval_request_id ++ " not approved")
  else
    let approval? :=
      match get_approval st approval_request_id with
      | some a => some a
      | none => historyLookup st approval_request_id
    match approval? with
    | none =>
      Except.error ("Approval request " ++ approval_request_id ++ " not approved")
    | some approval =>
      if approval.status ≠ ApprovalStatus.approved then
        Except.error ("Approval request " ++ approval_request_id ++ " not approved")
      else
        let preview := approval.preview
        Except.ok (JiraCall.transitionTicket
          (pget preview "ticket_key")
          (pget preview "target_status")
          (pget preview "comment"))

/-- `assign_ticket_with_approval` (fetch failure degrades to an empty current
view). -/
def assign_ticket_with_approval (st : ManagerState)
    (ticket_key assignee : Option String)
    (fetched : Except String Preview) : ApprovalRequest × ManagerState :=
  let current : Preview := match fetched with
    | Except.ok d => d
    | Except.error _ => []
  let preview : Preview :=
    [("ticket_key", opv ticket_key),
     ("current_assignee", pgetD current "assignee" (PVal.str "Unassigned")),
     ("new_assignee", opv assignee)]
  let base := "Assign ticket " ++ optStr ticket_key ++ " to " ++ optStr assignee
  let description_text :=
    if truthy (pget current "assignee") then
      base ++ " (currently assigned to " ++ pvalStr (pget current "assignee") ++ ")"
    else base
  create_approval_request st "assign_ticket" preview description_text ticket_key

/-- `execute_assign_ticket`. -/
def execute_assign_ticket (st : ManagerState) (approval_request_id : String) :
    Except String JiraCall :=
  if is_approved st approval_request_id = false then
    Except.error ("Approval request " ++ approval_request_id ++ " not approved")
  else
    let approval? :=
      match get_approval st approval_request_id with
      | some a => some a
      | none => historyLookup st approval_request_id
    match approval? with
    | none =>
      Except.error ("Approval request " ++ approval_request_id ++ " not approved")
    | some approval =>
      if approval.status ≠ ApprovalStatus.approved then
        Except.error ("Approval request " ++ approval_request_id ++ " not approved")
      else
        let preview := approval.preview
        Except.ok (JiraCall.assignTicket
          (pget preview "ticket_key")
          (pget preview "new_assignee"))

/-- `add_comment_with_approval` (no fetch on this path). -/
def add_comment_with_approval (st : ManagerState)
    (ticket_key comment_body visibility : Option String) :
    ApprovalRequest × ManagerState :=
  let preview : Preview :=
    [("ticket_key", opv ticket_key),
     ("comment", opv comment_body),
     ("visibility", opv visibility)]
  let description_text := "Add comment to ticket " ++ optStr ticket_key
  create_approval_request st "add_comment" preview description_text ticket_key

/-- `execute_add_comment`. -/
def execute_add_comment (st : ManagerState) (approval_request_id : String) :
    Except String JiraCall :=
  if is_approved st approval_request_id = false then
    Except.error ("Approval request " ++ approval_request_id ++ " not approved")
  else
    let approval? :=
      match get_approval st approval_request_id with
      | some a => some a
      | none => historyLookup st approval_request_id
    match approval? with
    | none =>
      Except.error ("Approval request " ++ approval_request_id ++ " not approved")
    | some approval =>
      if approval.status ≠ ApprovalStatus.approved then
        Except.error ("Approval request " ++ approval_request_id ++ " not approved")
      else
        let preview := approval.preview
        Except.ok (JiraCall.addComment
          (pget preview "ticket_key")
          (pget preview "comment")
          (pgetD preview "visibility" PVal.null))

/-- `ApprovalManager.execute_approved_action`: find the request in
`approval_history` (only), dispatch by `operation_type` with no status check.
Returns the external call issued (if any) together with the message the Python
function returns; `backend` supplies the outcome of the external call, whose
failure is caught by the `try`/`except`. -/
def execute_approved_action (backend : JiraCall → Except String BackendResult)
    (st : ManagerState) (request_id : String) : Option JiraCall × String :=
  match historyLookup st request_id with
  | none => (none, "Error: No such approved request.")
  | some approval =>
    let op := approval.operation_type
    let ticket_key := approval.ticket_key
    let preview := approval.preview
    if op = "add_comment" then
      let call := JiraCall.addComment (opv ticket_key) (pget preview "comment")
        PVal.null
      match backend call with
      | Except.ok _ => (some call, "Comment added to " ++ optStr ticket_key)
      | Except.error e => (some call, "Error executing action: " ++ e)
    else if op = "transition_ticket" then
      let call := JiraCall.transitionTicket (opv ticket_key)
        (pget preview "target_status") PVal.null
      match backend call with
      | Except.ok _ =>
        (some call, "Ticket " ++ optStr ticket_key ++ " transitioned to " ++
          pvalStr (pget preview "target_status"))
      | Except.error e => (some call, "Error executing action: " ++ e)
    else if op = "assign_ticket" then
      let call := JiraCall.assignTicket (opv ticket_key)
        (pget preview "assignee")
      match backend call with
      | Except.ok _ =>
        (some call, "Ticket " ++ optStr ticket_key ++ " assigned to " ++
          pvalStr (pget preview "assignee"))
      | Except.error e => (some call, "Error executing action: " ++ e)
    else if op = "update_summary" then
      let call := JiraCall.updateTicket (opv ticket_key)
        (pget preview "summary") PVal.null PVal.null PVal.null PVal.null
        PVal.null PVal.null
      match backend call with
      | Except.ok _ => (some call, "Summary updated for " ++ optStr ticket_key)
      | Except.error e => (some call, "Error executing action: " ++ e)
    else if op = "create_ticket" then
      let call := JiraCall.createTicket (pget preview "project_key")
        (pget preview "summary") (pget preview "description")
        (PVal.str "Task") PVal.null PVal.null PVal.null PVal.null
      match backend call with
      | Except.ok r => (some call, "Ticket created: " ++ bStr r)
      | Except.error e => (some call, "Error executing action: " ++ e)
    else
      (none, "Unknown operation type: " ++ op)

/-! String utilities mirroring the Python operations used by
`jira_agent_graph.py`.  All are structurally recursive so that concrete
runs reduce inside the kernel. -/

/-- Python `sub in s` (substring containment; `"" in s` is `True`). -/
def containsSub (sub : List Char) : List Char → Bool
  | [] => sub.isPrefixOf []
  | c :: rest => sub.isPrefixOf (c :: rest) || containsSub sub rest

/-- Python `sub in s` on strings. -/
def pyContains (s sub : String) : Bool :=
  containsSub sub.data s.data

/-- Helper for `str.split()` (whitespace split, empty pieces dropped). -/
def splitWsAux : List Char → List Char → List String
  | [], acc => if acc.isEmpty then [] else [String.mk acc.reverse]
  | c :: rest, acc =>
    if c.isWhitespace then
      if acc.isEmpty then splitWsAux rest []
      else String.mk acc.reverse :: splitWsAux rest []
    else splitWsAux rest (c :: acc)

/-- Python `s.split()`. -/
def pySplit (s : String) : List String :=
  splitWsAux s.data []

/-- Python `s.strip()`. -/
def pyStrip (s : String) : String :=
  String.mk (((s.data.dropWhile Char.isWhitespace).reverse.dropWhile
    Char.isWhitespace).reverse)

/-- Python `s.lower()`. -/
def lowerStr (s : String) : String :=
  String.mk (s.data.map Char.toLower)

/-- Python `s.upper()`. -/
def upperStr (s : String) : String :=
  String.mk (s.data.map Char.toUpper)

/-- Remainder of the input after the last occurrence of `sub` (`none` when
`sub` does not occur). -/
def afterLastSub (sub : List Char) : List Char → Option (List Char)
  | [] => none
  | c :: rest =>
    match afterLastSub sub rest with
    | some r => some r
    | none =>
      if sub.isPrefixOf (c :: rest) then some ((c :: rest).drop sub.length)
      else none

/-- Python `s.split(sub)[-1]`. -/
def pySplitLast (s sub : String) : String :=
  match afterLastSub sub.data s.data with
  | some r => String.mk r
  | none => s

/-- The token following the first occurrence of `w` that has a successor
(the `for i, part in enumerate(parts)` loops of `agent_node`). -/
def findAfter (w : String) : List String → Option String
  | x :: y :: rest => if x = w then some y else findAfter w (y :: rest)
  | _ => none

/-- Like `findAfter`, but also returns the tokens after the successor
(used by the reject branch to build the reason). -/
def findAfterRest (w : String) : List String → Option (String × List String)
  | x :: y :: rest =>
    if x = w then some (y, rest) else findAfterRest w (y :: rest)
  | _ => none

/-- Match `[A-Za-z][A-Za-z0-9]+-[0-9]+` at the head of the input (the ticket
key regex, compiled with `re.I`); greedy classes, no backtracking is ever
useful for this pattern. -/
def matchKeyAt : List Char → Option (List Char)
  | [] => none
  | c :: rest =>
    if c.isAlpha then
      let run := rest.takeWhile (fun d => d.isAlphanum)
      if run.length ≥ 1 then
        match rest.drop run.length with
        | '-' :: ds =>
          let digits := ds.takeWhile (fun d => d.isDigit)
          if digits.length ≥ 1 then some (c :: (run ++ '-' :: digits))
          else none
        | _ => none
      else none
    else none

/-- Leftmost ticket-key match (`re.search`). -/
def searchKeyAux : List Char → Option (List Char)
  | [] => none
  | c :: rest =>
    match matchKeyAt (c :: rest) with
    | some m => some m
    | none => searchKeyAux rest

/-- Word-or-whitespace character class `[\w\s]` (ASCII view). -/
def wsword (c : Char) : Bool :=
  c.isAlphanum || c == '_' || c.isWhitespace

/-- Match `([A-Z][A-Z0-9]+-[0-9]+)` (case sensitive: these patterns are
compiled without `re.I`) at the head; returns the key and the remainder. -/
def matchKeyUpperAt : List Char → Option (List Char × List Char)
  | [] => none
  | c :: rest =>
    if c.isUpper then
      let run := rest.takeWhile (fun d => d.isUpper || d.isDigit)
      if run.length ≥ 1 then
        match rest.drop run.length with
        | '-' :: ds =>
          let digits := ds.takeWhile (fun d => d.isDigit)
          if digits.length ≥ 1 then
            some (c :: (run ++ '-' :: digits), ds.drop digits.length)
          else none
        | _ => none
      else none
    else none

/-- Match one transition pattern `lit([A-Z][A-Z0-9]+-[0-9]+) to ([\w\s]+)` at
the head of the input. -/
def matchTransAt (lit : List Char) (cs : List Char) : Option (String × String) :=
  if lit.isPrefixOf cs then
    match matchKeyUpperAt (cs.drop lit.length) with
    | some (key, rem) =>
      if (" to ".data).isPrefixOf rem then
        let g2 := (rem.drop 4).takeWhile wsword
        if g2.length ≥ 1 then some (String.mk key, String.mk g2) else none
      else none
    | none => none
  else none

/-- Leftmost match of one transition pattern (`re.search`). -/
def searchTransAux (lit : List Char) : List Char → Option (String × String)
  | [] => none
  | c :: rest =>
    match matchTransAt lit (c :: rest) with
    | some r => some r
    | none => searchTransAux lit rest

/-- The literal heads of the five `transition_patterns` of `agent_node`. -/
def transitionPats : List String :=
  ["update ticket status ", "change status of ", "transition ticket ",
   "move ticket ", "set status of "]

/-- Match `(?:to|resume) ([\w\s]+)` at the head of the input (the two
alternatives start with different characters, so no backtracking arises). -/
def matchToResumeAt (cs : List Char) : Option String :=
  if ("to ".data).isPrefixOf cs then
    let g := (cs.drop 3).takeWhile wsword
    if g.length ≥ 1 then some (String.mk g) else none
  else if ("resume ".data).isPrefixOf cs then
    let g := (cs.drop 7).takeWhile wsword
    if g.length ≥ 1 then some (String.mk g) else none
  else none

/-- Leftmost match of `(?:to|resume) ([\w\s]+)`. -/
def searchToResume : List Char → Option String
  | [] => none
  | c :: rest =>
    match matchToResumeAt (c :: rest) with
    | some r => some r
    | none => searchToResume rest

/-- Match `to ([\w\s]+)` at the head of the input. -/
def matchToAt (cs : List Char) : Option String :=
  if ("to ".data).isPrefixOf cs then
    let g := (cs.drop 3).takeWhile wsword
    if g.length ≥ 1 then some (String.mk g) else none
  else none

/-- Leftmost match of `to ([\w\s]+)`. -/
def searchTo : List Char → Option String
  | [] => none
  | c :: rest =>
    match matchToAt (c :: rest) with
    | some r => some r
    | none => searchTo rest

/-! The LangGraph workflow of `jira_agent_graph.py`. -/

/-- A conversation message (`HumanMessage` / `AIMessage`). -/
structure Message where
  isHuman : Bool
  content : String
  deriving DecidableEq, Repr

/-- Build an `AIMessage`. -/
def aiMsg (s : String) : Message := { isHuman := false, content := s }

/-- Build a `HumanMessage`. -/
def humanMsg (s : String) : Message := { isHuman := true, content := s }

/-- The `AgentState` TypedDict of the workflow.  LangGraph merges the partial
dict a node returns into the state (messages are appended by the
`operator.add` annotation); each embedded node updates exactly the keys the
Python node's returned dict mentions. -/
structure AgentState where
  messages : List Message
  greeted : Bool
  status_filter : Option String
  ticket_to_summarize : Option String
  pending_approval_id : Option String
  operation_type : Option String
  target_ticket_key : Option String
  target_status : Option String
  assignee : Option String
  comment_body : Option String
  deriving DecidableEq, Repr

/-- External interactions a node performs, in order.  `jiraMutate` is the only
mutating ticket-system call; the others are read-only fetches or LLM calls. -/
inductive Effect where
  | fetchStatuses
  | llmCall
  | fetchDetails (ticket_key : Option String)
  | fetchTickets (status_filter : Option String)
  | summarizeTicket (ticket_key : String)
  | jiraMutate (call : JiraCall)
  deriving DecidableEq, Repr

/-- The external collaborators (JIRA client read side, LLM, mutating backend),
passed as pure parameters. -/
structure AgentEnv where
  statuses : List String
  llmReply : String
  fetch : Option String → Except String Preview
  backend : JiraCall → Except String BackendResult
  ticketsReport : Option String → String
  ticketSummary : String → String

/-- `messages[-1].content.lower() if messages else ""`. -/
def lastMsgOf (messages : List Message) : String :=
  match messages.getLast? with
  | some m => lowerStr m.content
  | none => ""

/-- Outcome of `agent_node`: the updated conversation state (or a raised
exception), the registry state, and the trace of external interactions. -/
abbrev AgentResult := (Except String AgentState) × ManagerState × List Effect

/-- `ApprovalManager.format_approval_message` (banner layout; decorative
emoji and quoting are simplified, entries with `None` values are skipped as
in the source). -/
def format_approval_message (approval : ApprovalRequest) : String :=
  let bar := String.mk (List.replicate 60 '=')
  let lines :=
    ["\n" ++ bar,
     "APPROVAL REQUIRED - " ++ upperStr approval.operation_type,
     bar,
     "Request ID: " ++ approval.request_id] ++
    (match approval.ticket_key with
     | some tk => if tk ≠ "" then ["Ticket: " ++ tk] else []
     | none => []) ++
    (if approval.description ≠ "" then
      ["\nDescription: " ++ approval.description] else []) ++
    ["\nPREVIEW OF CHANGES:"] ++
    ((approval.preview.filter (fun kv => kv.2 != PVal.null)).map
      (fun kv => "  - " ++ kv.1 ++ ": " ++ pvalStr kv.2)) ++
    ["\n" ++ bar,
     "Type approve {request_id} to proceed or reject {request_id} to cancel",
     bar ++ "\n"]
  joinSep "\n" lines

/-- Sections 4-6 of `agent_node`: the status filter (which first fetches the
status list from the ticket system), `show me my tickets`, and the LLM
fallback. -/
def agentStatusStage (env : AgentEnv) (reg : ManagerState) (st : AgentState)
    (last_msg : String) : AgentResult :=
  let statuses := env.statuses.map lowerStr
  let requested_status := statuses.find? (fun s => pyContains last_msg s)
  let tail : AgentResult :=
    if pyContains last_msg "show me my tickets" then
      (Except.ok { st with
        messages := st.messages ++ [aiMsg "Hi! Fetching your tickets..."]
        greeted := true
        status_filter := none
        ticket_to_summarize := none
        pending_approval_id := none
        operation_type := none }, reg, [Effect.fetchStatuses])
    else
      (Except.ok { st with
        messages := st.messages ++ [aiMsg env.llmReply]
        status_filter := none
        ticket_to_summarize := none
        pending_approval_id := none
        operation_type := none }, reg, [Effect.fetchStatuses, Effect.llmCall])
  match requested_status with
  | some s =>
    if s ≠ "" then
      (Except.ok { st with
        messages := st.messages ++
          [aiMsg ("Fetching tickets with status " ++ s ++ "...")]
        greeted := true
        status_filter := some s
        ticket_to_summarize := none
        pending_approval_id := none
        operation_type := none }, reg, [Effect.fetchStatuses])
    else tail
  | none => tail

/-- Section 3 of `agent_node`: `summarize ticket <KEY>`. -/
def agentSummarizeStage (env : AgentEnv) (reg : ManagerState)
    (st : AgentState) (last_msg : String) : AgentResult :=
  if pyContains last_msg "summarize ticket" then
    let parts := pySplit last_msg
    match parts.find? (fun p => pyContains p "-") with
    | some tk =>
      (Except.ok { st with
        messages := st.messages ++ [aiMsg ("Summarizing ticket " ++ tk ++ "...")]
        ticket_to_summarize := some tk
        status_filter := none
        pending_approval_id := none
        operation_type := none }, reg, [])
    | none => agentStatusStage env reg st last_msg
  else agentStatusStage env reg st last_msg

/-- Section 2 of `agent_node`: write-operation detection.  `parts?` carries
the local variable `parts`, which is only defined when an earlier approve or
reject branch ran; the assign branch reads it and raises `NameError`
otherwise. -/
def agentWriteStage (env : AgentEnv) (reg : ManagerState) (st : AgentState)
    (last_msg : String) (parts? : Option (List String)) : AgentResult :=
  let ticket_key : Option String :=
    (searchKeyAux last_msg.data).map (fun m => upperStr (String.mk m))
  let transRes : Option AgentResult :=
    (transitionPats.findSome? (fun lit => searchTransAux lit.data last_msg.data)).map
      (fun pr =>
        let tkey := upperStr pr.1
        let tstatus := pyStrip pr.2
        (Except.ok { st with
          messages := st.messages ++
            [aiMsg ("To transition ticket " ++ tkey ++ " to " ++ tstatus ++
              ", I will show you a preview for approval.")]
          status_filter := none
          ticket_to_summarize := none
          pending_approval_id := none
          operation_type := some "transition_ticket"
          target_ticket_key := some tkey
          target_status := some tstatus }, reg, []))
  let changeRes : Option AgentResult :=
    if (pyContains last_msg "change status" ||
        pyContains last_msg "resume development") && optTruthy ticket_key then
      match searchToResume last_msg.data with
      | some g =>
        let tstatus := pyStrip g
        if tstatus ≠ "" then
          some (Except.ok { st with
            messages := st.messages ++
              [aiMsg ("To transition ticket " ++ optStr ticket_key ++ " to " ++
                tstatus ++ ", I will show you a preview for approval.")]
            status_filter := none
            ticket_to_summarize := none
            pending_approval_id := none
            operation_type := some "transition_ticket"
            target_ticket_key := ticket_key
            target_status := some tstatus }, reg, [])
        else none
      | none => none
    else none
  let createRes : Option AgentResult :=
    if pyContains last_msg "create ticket" || pyContains last_msg "new ticket" then
      some (Except.ok { st with
        messages := st.messages ++
          [aiMsg ("To create a ticket, please provide: project key, summary, " ++
            "and description. I will show you a preview for approval.")]
        status_filter := none
        ticket_to_summarize := none
        pending_approval_id := none
        operation_type := some "create_ticket" }, reg, [])
    else none
  let updateRes : Option AgentResult :=
    if (pyContains last_msg "update ticket" ||
        pyContains last_msg "modify ticket") && optTruthy ticket_key then
      some (Except.ok { st with
        messages := st.messages ++
          [aiMsg ("To update ticket " ++ optStr ticket_key ++
            ", please specify what to change. I will show you a preview for approval.")]
        status_filter := none
        ticket_to_summarize := none
        pending_approval_id := none
        operation_type := some "update_ticket"
        target_ticket_key := ticket_key }, reg, [])
    else none
  let transFbRes : Option AgentResult :=
    if (pyContains last_msg "transition ticket" ||
        pyContains last_msg "move ticket" ||
        pyContains last_msg "change status") && optTruthy ticket_key then
      some (Except.ok { st with
        messages := st.messages ++
          [aiMsg ("To transition ticket " ++ optStr ticket_key ++
            ", please specify the target status. I will show you a preview for approval.")]
        status_filter := none
        ticket_to_summarize := none
        pending_approval_id := none
        operation_type := some "transition_ticket"
        target_ticket_key := ticket_key
        target_status := (searchTo last_msg.data).map pyStrip }, reg, [])
    else none
  let assignRes : Option AgentResult :=
    if (pyContains last_msg "assign ticket" ||
        pyContains last_msg "reassign ticket") && optTruthy ticket_key then
      some (match parts? with
        | none =>
          (Except.error "NameError: name parts is not defined", reg, [])
        | some parts =>
          let assignee := if parts.length > 2 then parts.getLast? else none
          (Except.ok { st with
            messages := st.messages ++
              [aiMsg ("To assign ticket " ++ optStr ticket_key ++
                ", please specify the assignee. I will show you a preview for approval.")]
            status_filter := none
            ticket_to_summarize := none
            pending_approval_id := none
            operation_type := some "assign_ticket"
            target_ticket_key := ticket_key
            assignee := assignee }, reg, []))
    else none
  let commentRes : Option AgentResult :=
    if (pyContains last_msg "add comment" ||
        pyContains last_msg "comment on ticket") && optTruthy ticket_key then
      let comment_body :=
        if pyContains last_msg "add comment" then
          pyStrip (pySplitLast last_msg "add comment")
        else ""
      some (Except.ok { st with
        messages := st.messages ++
          [aiMsg ("To add a comment to ticket " ++ optStr ticket_key ++
            ", please provide the comment text. I will show you a preview for approval.")]
        status_filter := none
        ticket_to_summarize := none
        pending_approval_id := none
        operation_type := some "add_comment"
        target_ticket_key := ticket_key
        comment_body := some comment_body }, reg, [])
    else none
  (transRes <|> changeRes <|> createRes <|> updateRes <|> transFbRes <|>
      assignRes <|> commentRes).getD (agentSummarizeStage env reg st last_msg)

/-- Section 1b of `agent_node`: the reject command. -/
def agentRejectStage (env : AgentEnv) (reg : ManagerState) (st : AgentState)
    (last_msg : String) (parts? : Option (List String)) : AgentResult :=
  if pyContains last_msg "reject" then
    let parts := pySplit last_msg
    match findAfterRest "reject" parts with
    | some pr =>
      let reason := joinSep " " pr.2
      let r := reject reg pr.1 reason "user"
      (Except.ok { st with
        messages := st.messages ++
          [aiMsg ("Operation rejected. Approval request " ++ pr.1 ++
            " has been cancelled.")]
        status_filter := none
        ticket_to_summarize := none
        pending_approval_id := none
        operation_type := none }, r.2, [])
    | none => agentWriteStage env reg st last_msg (some parts)
  else agentWriteStage env reg st last_msg parts?

/-- `agent_node`: classify the last message and update conversation and
registry state.  An `Except.error` outcome models a raised exception. -/
def agent_node (env : AgentEnv) (reg : ManagerState) (st : AgentState) :
    AgentResult :=
  let human_messages :=
    st.messages.filter (fun m => m.isHuman && pyStrip m.content ≠ "")
  if human_messages.isEmpty then
    (Except.ok { st with
      messages := st.messages ++
        [aiMsg "I need a human message to proceed. Please provide instructions."]
      status_filter := none
      ticket_to_summarize := none
      pending_approval_id := none
      operation_type := none }, reg, [])
  else
    let last_msg := lastMsgOf st.messages
    if pyContains last_msg "approve" then
      let parts := pySplit last_msg
      match findAfter "approve" parts with
      | some approval_id =>
        let r := approve reg approval_id "user"
        if r.1 then
          let approval? :=
            match pendingLookup r.2 approval_id with
            | some a => some a
            | none => historyLookup r.2 approval_id
          match approval? with
          | some approval =>
            (Except.ok { st with
              messages := st.messages ++
                [aiMsg ("Approval granted for " ++ approval.operation_type ++
                  ". Executing operation...")]
              pending_approval_id := some approval_id
              operation_type := some approval.operation_type
              status_filter := none
              ticket_to_summarize := none }, r.2, [])
          | none => agentRejectStage env r.2 st last_msg (some parts)
        else
          (Except.ok { st with
            messages := st.messages ++
              [aiMsg ("Approval request " ++ approval_id ++
                " not found or already processed.")]
            status_filter := none
            ticket_to_summarize := none
            pending_approval_id := none
            operation_type := none }, r.2, [])
      | none => agentRejectStage env reg st last_msg (some parts)
    else agentRejectStage env reg st last_msg none

/-- `approval_node`: build the preview and register the pending request for
the detected operation type.  The create branch passes the hardcoded
placeholder values of the source (its TODO: parse real values). -/
def approval_node (env : AgentEnv) (reg : ManagerState) (st : AgentState) :
    AgentState × ManagerState × List Effect :=
  let operation_type := st.operation_type
  if operation_type = some "create_ticket" then
    let r := create_ticket_with_approval reg "PROJ" "Example Ticket"
      "Example description" "Task" none none none
    ({ st with
      messages := st.messages ++ [aiMsg (format_approval_message r.1)]
      pending_approval_id := some r.1.request_id
      operation_type := operation_type
      status_filter := none
      ticket_to_summarize := none }, r.2, [])
  else if operation_type = some "update_ticket" then
    let ticket_key := st.target_ticket_key
    let r := update_ticket_with_approval reg ticket_key none none none none
      none none (env.fetch ticket_key)
    ({ st with
      messages := st.messages ++ [aiMsg (format_approval_message r.1)]
      pending_approval_id := some r.1.request_id
      operation_type := operation_type
      status_filter := none
      ticket_to_summarize := none }, r.2, [Effect.fetchDetails ticket_key])
  else if operation_type = some "transition_ticket" then
    let ticket_key := st.target_ticket_key
    let r := transition_ticket_with_approval reg ticket_key st.target_status
      none (env.fetch ticket_key)
    ({ st with
      messages := st.messages ++ [aiMsg (format_approval_message r.1)]
      pending_approval_id := some r.1.request_id
      operation_type := operation_type
      status_filter := none
      ticket_to_summarize := none }, r.2, [Effect.fetchDetails ticket_key])
  else if operation_type = some "assign_ticket" then
    let ticket_key := st.target_ticket_key
    let r := assign_ticket_with_approval reg ticket_key st.assignee
      (env.fetch ticket_key)
    ({ st with
      messages := st.messages ++ [aiMsg (format_approval_message r.1)]
      pending_approval_id := some r.1.request_id
      operation_type := operation_type
      status_filter := none
      ticket_to_summarize := none }, r.2, [Effect.fetchDetails ticket_key])
  else if operation_type = some "add_comment" then
    let ticket_key := st.target_ticket_key
    let r := add_comment_with_approval reg ticket_key st.comment_body none
    ({ st with
      messages := st.messages ++ [aiMsg (format_approval_message r.1)]
      pending_approval_id := some r.1.request_id
      operation_type := operation_type
      status_filter := none
      ticket_to_summarize := none }, r.2, [])
  else (st, reg, [])

/-- `tool_node` (read-only ticket listing). -/
def tool_node (env : AgentEnv) (st : AgentState) : AgentState × List Effect :=
  if st.greeted then
    ({ st with
      messages := st.messages ++ [aiMsg (env.ticketsReport st.status_filter)]
      greeted := false
      status_filter := none
      ticket_to_summarize := none
      pending_approval_id := none
      operation_type := none }, [Effect.fetchTickets st.status_filter])
  else (st, [])

/-- `summarize_ticket_node` (read-only summarization). -/
def summarize_ticket_node (env : AgentEnv) (st : AgentState) :
    AgentState × List Effect :=
  if optTruthy st.ticket_to_summarize then
    let tk := match st.ticket_to_summarize with | some t => t | none => ""
    ({ st with
      messages := st.messages ++ [aiMsg (env.ticketSummary tk)]
      ticket_to_summarize := none
      status_filter := none
      pending_approval_id := none
      operation_type := none }, [Effect.summarizeTicket tk])
  else (st, [])

/-- The state update shared by all terminal branches of `execute_node` that
reset the pending approval. -/
def clearedWith (st : AgentState) (msg : String) : AgentState :=
  { st with
    messages := st.messages ++ [aiMsg msg]
    status_filter := none
    ticket_to_summarize := none
    pending_approval_id := none
    operation_type := none }

/-- `execute_node`: execute the approved operation through the backend; on
an unsuccessful boolean result the Python function falls through to
`return state` leaving the pending approval in place. -/
def execute_node (backend : JiraCall → Except String BackendResult)
    (reg : ManagerState) (st : AgentState) : AgentState × List Effect :=
  let approval_id := st.pending_approval_id
  let operation_type := st.operation_type
  if !(optTruthy approval_id) || !(optTruthy operation_type) then
    (clearedWith st "No pending operation to execute.", [])
  else
    let aid := match approval_id with | some a => a | none => ""
    let op := match operation_type with | some o => o | none => ""
    if op = "create_ticket" then
      match execute_create_ticket reg aid with
      | Except.error e => (clearedWith st ("Error executing operation: " ++ e), [])
      | Except.ok call =>
        match backend call with
        | Except.error e =>
          (clearedWith st ("Error executing operation: " ++ e),
            [Effect.jiraMutate call])
        | Except.ok r =>
          (clearedWith st ("Ticket created successfully: " ++ bStr r),
            [Effect.jiraMutate call])
    else if op = "update_ticket" then
      match execute_update_ticket reg aid with
      | Except.error e => (clearedWith st ("Error executing operation: " ++ e), [])
      | Except.ok call =>
        match backend call with
        | Except.error e =>
          (clearedWith st ("Error executing operation: " ++ e),
            [Effect.jiraMutate call])
        | Except.ok r =>
          if bTruthy r then
            (clearedWith st "Ticket updated successfully.", [Effect.jiraMutate call])
          else (st, [Effect.jiraMutate call])
    else if op = "transition_ticket" then
      match execute_transition_ticket reg aid with
      | Except.error e => (clearedWith st ("Error executing operation: " ++ e), [])
      | Except.ok call =>
        match backend call with
        | Except.error e =>
          (clearedWith st ("Error executing operation: " ++ e),
            [Effect.jiraMutate call])
        | Except.ok r =>
          if bTruthy r then
            (clearedWith st "Ticket transitioned successfully.",
              [Effect.jiraMutate call])
          else (st, [Effect.jiraMutate call])
    else if op = "assign_ticket" then
      match execute_assign_ticket reg aid with
      | Except.error e => (clearedWith st ("Error executing operation: " ++ e), [])
      | Except.ok call =>
        match backend call with
        | Except.error e =>
          (clearedWith st ("Error executing operation: " ++ e),
            [Effect.jiraMutate call])
        | Except.ok r =>
          if bTruthy r then
            (clearedWith st "Ticket assigned successfully.",
              [Effect.jiraMutate call])
          else (st, [Effect.jiraMutate call])
    else if op = "add_comment" then
      match execute_add_comment reg aid with
      | Except.error e => (clearedWith st ("Error executing operation: " ++ e), [])
      | Except.ok call =>
        match backend call with
        | Except.error e =>
          (clearedWith st ("Error executing operation: " ++ e),
            [Effect.jiraMutate call])
        | Except.ok r =>
          if bTruthy r then
            (clearedWith st "Comment added successfully.",
              [Effect.jiraMutate call])
          else (st, [Effect.jiraMutate call])
    else (st, [])

/-- The conditional edge targets of the workflow graph. -/
inductive Route where
  | approval
  | execute
  | tools
  | summarizer
  | done
  deriving DecidableEq, Repr

/-- `route_after_agent`. -/
def route_after_agent (reg : ManagerState) (st : AgentState) : Route :=
  if optTruthy st.operation_type && !(optTruthy st.pending_approval_id) then
    Route.approval
  else if optTruthy st.pending_approval_id && optTruthy st.operation_type then
    let aid := match st.pending_approval_id with | some a => a | none => ""
    if is_approved reg aid then Route.execute else Route.done
  else if st.greeted then Route.tools
  else if optTruthy st.ticket_to_summarize then Route.summarizer
  else Route.done

/-- One invocation of the compiled workflow: `agent` then the routed node
(each non-agent node has an edge straight to `END`). -/
def runTurn (env : AgentEnv) (reg : ManagerState) (st : AgentState) :
    AgentResult :=
  match agent_node env reg st with
  | (Except.error e, reg1, tr) => (Except.error e, reg1, tr)
  | (Except.ok st1, reg1, tr) =>
    match route_after_agent reg1 st1 with
    | Route.approval =>
      let r := approval_node env reg1 st1
      (Except.ok r.1, r.2.1, tr ++ r.2.2)
    | Route.execute =>
      let r := execute_node env.backend reg1 st1
      (Except.ok r.1, reg1, tr ++ r.2)
    | Route.tools =>
      let r := tool_node env st1
      (Except.ok r.1, reg1, tr ++ r.2)
    | Route.summarizer =>
      let r := summarize_ticket_node env st1
      (Except.ok r.1, reg1, tr ++ r.2)
    | Route.done => (Except.ok st1, reg1, tr)

/-! Invariants of the approval registry and supporting lemmas. -/

/-- The identifiers present in the pending collection. -/
def pendingKeys (st : ManagerState) : List String :=
  st.pending_approvals.map (fun kv => kv.1)

/-- Well-formedness of reachable registry states: every identifier was
produced by the fresh-id supply below the counter, pending entries carry
their key and have status pending, and no identifier occurs in both
collections. -/
def Wf (st : ManagerState) : Prop :=
  (∀ kv ∈ st.pending_approvals,
    (∃ k, k < st.next_id ∧ kv.1 = freshId k) ∧
    kv.2.request_id = kv.1 ∧ kv.2.status = ApprovalStatus.pending) ∧
  (∀ r ∈ st.approval_history, ∃ k, k < st.next_id ∧ r.request_id = freshId k) ∧
  (∀ kv ∈ st.pending_approvals, ∀ r ∈ st.approval_history,
    r.request_id ≠ kv.1)

theorem wf_empty : Wf emptyManager := by
  refine ⟨?_, ?_, ?_⟩ <;> intro x hx <;> simp [emptyManager] at hx

theorem freshId_inj {m n : Nat} (h : freshId m = freshId n) : m = n := by
  have h2 : List.replicate (m + 1) 'u' = List.replicate (n + 1) 'u' :=
    congrArg String.data h
  have h3 := congrArg List.length h2
  simp only [List.length_replicate] at h3
  omega

theorem find?_filter_none {α : Type} {l : List α} {p q : α → Bool}
    (h : l.find? p = none) : (l.filter q).find? p = none := by
  rw [List.find?_eq_none] at h ⊢
  intro x hx
  exact h x (List.mem_of_mem_filter hx)

theorem find?_filter_self_none {l : List (String × ApprovalRequest)}
    {id : String} :
    (l.filter (fun kv => kv.1 != id)).find? (fun kv => kv.1 == id) = none := by
  rw [List.find?_eq_none]
  intro x hx
  have hq := List.of_mem_filter hx
  simp only [bne_iff_ne, ne_eq] at hq
  simp [hq]

theorem pendingLookup_fresh_none {st : ManagerState} (h : Wf st) :
    pendingLookup st (freshId st.next_id) = none := by
  unfold pendingLookup
  cases hf : st.pending_approvals.find? (fun kv => kv.1 == freshId st.next_id) with
  | none => rfl
  | some kv =>
    exfalso
    have hm := List.mem_of_find?_eq_some hf
    have hp := List.find?_some hf
    simp only [beq_iff_eq] at hp
    obtain ⟨⟨k, hk, hkey⟩, -, -⟩ := h.1 kv hm
    rw [hkey] at hp
    exact absurd (freshId_inj hp) (Nat.ne_of_lt hk)

theorem historyLookup_fresh_none {st : ManagerState} (h : Wf st) :
    historyLookup st (freshId st.next_id) = none := by
  unfold historyLookup
  cases hf : st.approval_history.find? (fun r => r.request_id == freshId st.next_id) with
  | none => rfl
  | some r =>
    exfalso
    have hm := List.mem_of_find?_eq_some hf
    have hp := List.find?_some hf
    simp only [beq_iff_eq] at hp
    obtain ⟨k, hk, hkey⟩ := h.2.1 r hm
    rw [hkey] at hp
    exact absurd (freshId_inj hp) (Nat.ne_of_lt hk)

theorem pendingLookup_create_self {st : ManagerState} {op : String}
    {p : Preview} {d : String} {tk : Option String} (h : Wf st) :
    pendingLookup (create_approval_request st op p d tk).2
        (freshId st.next_id) =
      some (create_approval_request st op p d tk).1 := by
  have hnone : st.pending_approvals.find? (fun kv => kv.1 == freshId st.next_id) = none := by
    have := pendingLookup_fresh_none h
    unfold pendingLookup at this
    cases hf : st.pending_approvals.find? (fun kv => kv.1 == freshId st.next_id) with
    | none => rfl
    | some kv => rw [hf] at this; simp at this
  unfold create_approval_request pendingLookup
  simp [List.find?_append, hnone]

theorem approve_of_pending {st : ManagerState} {id u : String}
    {a : ApprovalRequest} (h : pendingLookup st id = some a) :
    approve st id u =
      (true,
        { pending_approvals :=
            st.pending_approvals.filter (fun kv => kv.1 != id),
          approval_history := st.approval_history ++
            [{ a with status := ApprovalStatus.approved, approved_by := some u }],
          next_id := st.next_id }) := by
  unfold approve
  rw [h]

theorem reject_of_pending {st : ManagerState} {id reason u : String}
    {a : ApprovalRequest} (h : pendingLookup st id = some a) :
    reject st id reason u =
      (true,
        { pending_approvals :=
            st.pending_approvals.filter (fun kv => kv.1 != id),
          approval_history := st.approval_history ++
            [{ a with
                status := ApprovalStatus.rejected
                rejection_reason := some reason
                approved_by := some u }],
          next_id := st.next_id }) := by
  unfold reject
  rw [h]

theorem pendingLookup_some_wf {st : ManagerState} {id : String}
    {a : ApprovalRequest} (h : Wf st) (hp : pendingLookup st id = some a) :
    a.request_id = id ∧ a.status = ApprovalStatus.pending ∧
    (∃ k, k < st.next_id ∧ id = freshId k) ∧ (id, a) ∈ st.pending_approvals ∧
    (∀ r ∈ st.approval_history, r.request_id ≠ id) := by
  unfold pendingLookup at hp
  cases hf : st.pending_approvals.find? (fun kv => kv.1 == id) with
  | none => rw [hf] at hp; simp at hp
  | some kv =>
    rw [hf] at hp
    simp only [Option.map_some'] at hp
    have hm := List.mem_of_find?_eq_some hf
    have hkey := List.find?_some hf
    simp only [beq_iff_eq] at hkey
    obtain ⟨⟨k, hk, hkid⟩, hreq, hstat⟩ := h.1 kv hm
    have hkv : kv = (id, a) := by
      cases kv with
      | mk k2 v2 =>
        simp only at hkey hp
        injection hp with hv
        rw [hkey, hv]
    subst hkv
    refine ⟨by simpa using hreq, by simpa using hstat,
      ⟨k, hk, by simpa using hkid⟩, hm, ?_⟩
    intro r hr
    exact h.2.2 (id, a) hm r hr

theorem wf_create {st : ManagerState} {op : String} {p : Preview}
    {d : String} {tk : Option String} (h : Wf st) :
    Wf (create_approval_request st op p d tk).2 := by
  unfold create_approval_request
  refine ⟨?_, ?_, ?_⟩
  · intro kv hkv
    simp only [List.mem_append, List.mem_singleton] at hkv
    cases hkv with
    | inl hin =>
      obtain ⟨⟨k, hk, hkey⟩, hreq, hstat⟩ := h.1 kv hin
      exact ⟨⟨k, Nat.lt_succ_of_lt hk, hkey⟩, hreq, hstat⟩
    | inr heq =>
      subst heq
      exact ⟨⟨st.next_id, Nat.lt_succ_self _, rfl⟩, rfl, rfl⟩
  · intro r hr
    obtain ⟨k, hk, hkey⟩ := h.2.1 r hr
    exact ⟨k, Nat.lt_succ_of_lt hk, hkey⟩
  · intro kv hkv r hr
    simp only [List.mem_append, List.mem_singleton] at hkv
    cases hkv with
    | inl hin => exact h.2.2 kv hin r hr
    | inr heq =>
      subst heq
      obtain ⟨k, hk, hkey⟩ := h.2.1 r hr
      simp only [hkey]
      intro hcontra
      exact absurd (freshId_inj hcontra) (Nat.ne_of_lt hk)

theorem wf_approve {st : ManagerState} {id u : String} (h : Wf st) :
    Wf (approve st id u).2 := by
  cases hp : pendingLookup st id with
  | none => unfold approve; rw [hp]; exact h
  | some a =>
    rw [approve_of_pending hp]
    obtain ⟨hreq, hstat, ⟨k, hk, hkid⟩, hmem, hhist⟩ :=
      pendingLookup_some_wf h hp
    refine ⟨?_, ?_, ?_⟩
    · intro kv hkv
      exact h.1 kv (List.mem_of_mem_filter hkv)
    · intro r hr
      simp only [List.mem_append, List.mem_singleton] at hr
      cases hr with
      | inl hin => exact h.2.1 r hin
      | inr heq => subst heq; exact ⟨k, hk, by simpa [hreq] using hkid⟩
    · intro kv hkv r hr
      have hmemf := List.mem_of_mem_filter hkv
      have hne := List.of_mem_filter hkv
      simp only [bne_iff_ne, ne_eq] at hne
      simp only [List.mem_append, List.mem_singleton] at hr
      cases hr with
      | inl hin => exact h.2.2 kv hmemf r hin
      | inr heq =>
        subst heq
        simpa [hreq] using fun hcontra => hne hcontra.symm

theorem wf_reject {st : ManagerState} {id reason u : String} (h : Wf st) :
    Wf (reject st id reason u).2 := by
  cases hp : pendingLookup st id with
  | none => unfold reject; rw [hp]; exact h
  | some a =>
    rw [reject_of_pending hp]
    obtain ⟨hreq, hstat, ⟨k, hk, hkid⟩, hmem, hhist⟩ :=
      pendingLookup_some_wf h hp
    refine ⟨?_, ?_, ?_⟩
    · intro kv hkv
      exact h.1 kv (List.mem_of_mem_filter hkv)
    · intro r hr
      simp only [List.mem_append, List.mem_singleton] at hr
      cases hr with
      | inl hin => exact h.2.1 r hin
      | inr heq => subst heq; exact ⟨k, hk, by simpa [hreq] using hkid⟩
    · intro kv hkv r hr
      have hmemf := List.mem_of_mem_filter hkv
      have hne := List.of_mem_filter hkv
      simp only [bne_iff_ne, ne_eq] at hne
      simp only [List.mem_append, List.mem_singleton] at hr
      cases hr with
      | inl hin => exact h.2.2 kv hmemf r hin
      | inr heq =>
        subst heq
        simpa [hreq] using fun hcontra => hne hcontra.symm

theorem wf_applyOp {st : ManagerState} (h : Wf st) (o : RegOp) :
    Wf (applyOp st o) := by
  cases o with
  | createReq op p d tk => exact wf_create h
  | approveReq id u => exact wf_approve h
  | rejectReq id r u => exact wf_reject h

theorem historyLookup_some_mem {st : ManagerState} {id : String}
    {r : ApprovalRequest} (hh : historyLookup st id = some r) :
    r ∈ st.approval_history ∧ r.request_id = id := by
  have hm := List.mem_of_find?_eq_some hh
  have hp := List.find?_some hh
  simp only [beq_iff_eq] at hp
  exact ⟨hm, hp⟩

theorem stable_applyOp {st : ManagerState} {id : String} {r : ApprovalRequest}
    (h : Wf st) (hp : pendingLookup st id = none)
    (hh : historyLookup st id = some r) (o : RegOp) :
    Wf (applyOp st o) ∧ pendingLookup (applyOp st o) id = none ∧
    historyLookup (applyOp st o) id = some r := by
  obtain ⟨hmem, hid⟩ := historyLookup_some_mem hh
  obtain ⟨k, hk, hkid⟩ := h.2.1 r hmem
  rw [hid] at hkid
  have hfind : st.pending_approvals.find? (fun kv => kv.1 == id) = none := by
    unfold pendingLookup at hp
    cases hf : st.pending_approvals.find? (fun kv => kv.1 == id) with
    | none => rfl
    | some kv => rw [hf] at hp; simp at hp
  refine ⟨wf_applyOp h o, ?_, ?_⟩
  · cases o with
    | createReq op p d tk =>
      simp only [applyOp]
      unfold create_approval_request pendingLookup
      simp only [List.find?_append, hfind, Option.none_or]
      have hne : (freshId st.next_id == id) = false := by
        simp only [beq_eq_false_iff_ne, ne_eq]
        rw [hkid]
        intro hcontra
        exact absurd (freshId_inj hcontra) (Nat.ne_of_lt hk).symm
      simp [List.find?, hne]
    | approveReq j u =>
      simp only [applyOp]
      cases hpj : pendingLookup st j with
      | none => unfold approve; rw [hpj]; exact hp
      | some b =>
        rw [approve_of_pending hpj]
        unfold pendingLookup
        simp only
        rw [find?_filter_none hfind]
        rfl
    | rejectReq j reason u =>
      simp only [applyOp]
      cases hpj : pendingLookup st j with
      | none => unfold reject; rw [hpj]; exact hp
      | some b =>
        rw [reject_of_pending hpj]
        unfold pendingLookup
        simp only
        rw [find?_filter_none hfind]
        rfl
  · cases o with
    | createReq op p d tk =>
      simp only [applyOp]
      unfold create_approval_request historyLookup
      unfold historyLookup at hh
      exact hh
    | approveReq j u =>
      simp only [applyOp]
      cases hpj : pendingLookup st j with
      | none => unfold approve; rw [hpj]; exact hh
      | some b =>
        rw [approve_of_pending hpj]
        unfold historyLookup
        unfold historyLookup at hh
        simp only [List.find?_append, hh, Option.or]
    | rejectReq j reason u =>
      simp only [applyOp]
      cases hpj : pendingLookup st j with
      | none => unfold reject; rw [hpj]; exact hh
      | some b =>
        rw [reject_of_pending hpj]
        unfold historyLookup
        unfold historyLookup at hh
        simp only [List.find?_append, hh, Option.or]

theorem stable_runOps {st : ManagerState} {id : String} {r : ApprovalRequest}
    (h : Wf st) (hp : pendingLookup st id = none)
    (hh : historyLookup st id = some r) (ops : List RegOp) :
    Wf (runOps st ops) ∧ pendingLookup (runOps st ops) id = none ∧
    historyLookup (runOps st ops) id = some r := by
  induction ops generalizing st with
  | nil => exact ⟨h, hp, hh⟩
  | cons o rest ih =>
    obtain ⟨h1, h2, h3⟩ := stable_applyOp h hp hh o
    exact ih h1 h2 h3

theorem create_then_approve {st : ManagerState} {op d : String} {p : Preview}
    {tk : Option String} {a : ApprovalRequest} {st1 : ManagerState}
    (h : Wf st) (hc : create_approval_request st op p d tk = (a, st1))
    (u : String) :
    (approve st1 a.request_id u).1 = true ∧
    Wf (approve st1 a.request_id u).2 ∧
    pendingLookup (approve st1 a.request_id u).2 a.request_id = none ∧
    historyLookup (approve st1 a.request_id u).2 a.request_id =
      some { a with status := ApprovalStatus.approved, approved_by := some u } := by
  have ha : a = (create_approval_request st op p d tk).1 := by rw [hc]
  have hst1 : st1 = (create_approval_request st op p d tk).2 := by rw [hc]
  have haid : a.request_id = freshId st.next_id := by
    rw [ha]; rfl
  have hlook : pendingLookup st1 a.request_id = some a := by
    rw [hst1, haid, ha]
    exact pendingLookup_create_self h
  have happrove := approve_of_pending (u := u) hlook
  have hhist1 : st1.approval_history = st.approval_history := by
    rw [hst1]; rfl
  have holdnone : st.approval_history.find?
      (fun x => x.request_id == a.request_id) = none := by
    have := historyLookup_fresh_none h
    unfold historyLookup at this
    rw [haid]
    exact this
  refine ⟨by rw [happrove], ?_, ?_, ?_⟩
  · have hwf1 : Wf st1 := by rw [hst1]; exact wf_create h
    exact wf_approve hwf1
  · rw [happrove]
    unfold pendingLookup
    simp only
    rw [find?_filter_self_none]
    rfl
  · rw [happrove]
    unfold historyLookup
    simp only [hhist1, List.find?_append, holdnone, Option.none_or]
    simp [List.find?]

theorem is_approved_of_history {st : ManagerState} {id : String}
    {r : ApprovalRequest} (hp : pendingLookup st id = none)
    (hh : historyLookup st id = some r) :
    is_approved st id = (r.status == ApprovalStatus.approved) := by
  unfold is_approved get_approval
  rw [hp, hh]

theorem exec_create_of_approved {st : ManagerState} {id : String}
    {r : ApprovalRequest} (hp : pendingLookup st id = none)
    (hh : historyLookup st id = some r)
    (hs : r.status = ApprovalStatus.approved) :
    execute_create_ticket st id = Except.ok (JiraCall.createTicket
      (pget r.preview "project") (pget r.preview "summary")
      (pget r.preview "description")
      (pgetD r.preview "issue_type" (PVal.str "Task"))
      (if pget r.preview "assignee" ≠ PVal.str "Unassigned" then
        pget r.preview "assignee" else PVal.null)
      (pget r.preview "priority") (pget r.preview "labels")
      (pget r.preview "custom_fields")) := by
  have hia := is_approved_of_history hp hh
  rw [hs] at hia
  unfold execute_create_ticket get_approval
  rw [hia, hp, hh]
  simp [hs]

theorem exec_update_of_approved {st : ManagerState} {id : String}
    {r : ApprovalRequest} (hp : pendingLookup st id = none)
    (hh : historyLookup st id = some r)
    (hs : r.status = ApprovalStatus.approved) :
    execute_update_ticket st id = Except.ok (JiraCall.updateTicket
      (pget r.preview "ticket_key") (pget r.preview "new_summary")
      (pget r.preview "new_description") (pget r.preview "new_assignee")
      (pget r.preview "new_status") (pget r.preview "new_priority")
      (pget r.preview "new_labels") (pget r.preview "custom_fields")) := by
  have hia := is_approved_of_history hp hh
  rw [hs] at hia
  unfold execute_update_ticket get_approval
  rw [hia, hp, hh]
  simp [hs]

theorem exec_transition_of_approved {st : ManagerState} {id : String}
    {r : ApprovalRequest} (hp : pendingLookup st id = none)
    (hh : historyLookup st id = some r)
    (hs : r.status = ApprovalStatus.approved) :
    execute_transition_ticket st id = Except.ok (JiraCall.transitionTicket
      (pget r.preview "ticket_key") (pget r.preview "target_status")
      (pget r.preview "comment")) := by
  have hia := is_approved_of_history hp hh
  rw [hs] at hia
  unfold execute_transition_ticket get_approval
  rw [hia, hp, hh]
  simp [hs]

theorem exec_assign_of_approved {st : ManagerState} {id : String}
    {r : ApprovalRequest} (hp : pendingLookup st id = none)
    (hh : historyLookup st id = some r)
    (hs : r.status = ApprovalStatus.approved) :
    execute_assign_ticket st id = Except.ok (JiraCall.assignTicket
      (pget r.preview "ticket_key") (pget r.preview "new_assignee")) := by
  have hia := is_approved_of_history hp hh
  rw [hs] at hia
  unfold execute_assign_ticket get_approval
  rw [hia, hp, hh]
  simp [hs]

theorem exec_comment_of_approved {st : ManagerState} {id : String}
    {r : ApprovalRequest} (hp : pendingLookup st id = none)
    (hh : historyLookup st id = some r)
    (hs : r.status = ApprovalStatus.approved) :
    execute_add_comment st id = Except.ok (JiraCall.addComment
      (pget r.preview "ticket_key") (pget r.preview "comment")
      (pgetD r.preview "visibility" PVal.null)) := by
  have hia := is_approved_of_history hp hh
  rw [hs] at hia
  unfold execute_add_comment get_approval
  rw [hia, hp, hh]
  simp [hs]

/-! Theorems settling the claims. -/

/-- C1: whenever the registry does not report an approval id as approved,
every executor (`execute_create_ticket`, `execute_update_ticket`,
`execute_transition_ticket`, `execute_assign_ticket`, `execute_add_comment`)
raises an authorization error (`ValueError`, embedded as `Except.error`) and
issues no external mutating call (no `JiraCall` is produced). -/
theorem c1_unapproved_executors_error (st : ManagerState) (id : String)
    (h : is_approved st id = false) :
    (∃ e, execute_create_ticket st id = Except.error e) ∧
    (∃ e, execute_update_ticket st id = Except.error e) ∧
    (∃ e, execute_transition_ticket st id = Except.error e) ∧
    (∃ e, execute_assign_ticket st id = Except.error e) ∧
    (∃ e, execute_add_comment st id = Except.error e) := by
  refine ⟨?_, ?_, ?_, ?_, ?_⟩
  · unfold execute_create_ticket; rw [h]; simp
  · unfold execute_update_ticket; rw [h]; simp
  · unfold execute_transition_ticket; rw [h]; simp
  · unfold execute_assign_ticket; rw [h]; simp
  · unfold execute_add_comment; rw [h]; simp

/-- Witness for C1 at a concrete unapproved id on the initial registry. -/
theorem c1_unapproved_executors_error_witness :
    is_approved emptyManager "x" = false ∧
    (∃ e, execute_create_ticket emptyManager "x" = Except.error e) :=
  ⟨by decide, (c1_unapproved_executors_error emptyManager "x" (by decide)).1⟩

/-- C5: `approve` returns true exactly when the id is currently pending
(equivalently, when it is among the pending keys), and a false return leaves
the registry state completely unchanged. -/
theorem c5_approve_iff_pending_and_frame (st : ManagerState) (id u : String) :
    ((approve st id u).1 = true ↔ (pendingLookup st id).isSome) ∧
    ((pendingLookup st id).isSome ↔ id ∈ pendingKeys st) ∧
    ((approve st id u).1 = false → (approve st id u).2 = st) := by
  refine ⟨?_, ?_, ?_⟩
  · unfold approve
    cases h : pendingLookup st id <;> simp
  · unfold pendingLookup pendingKeys
    have hiff : (List.find? (fun kv => kv.1 == id) st.pending_approvals).isSome
        ↔ id ∈ st.pending_approvals.map (fun kv => kv.1) := by
      rw [List.find?_isSome]
      constructor
      · rintro ⟨kv, hkv, hbeq⟩
        simp only [beq_iff_eq] at hbeq
        exact List.mem_map.mpr ⟨kv, hkv, hbeq⟩
      · intro hmem
        obtain ⟨kv, hkv, heq⟩ := List.mem_map.mp hmem
        exact ⟨kv, hkv, by simp [heq]⟩
    rw [← hiff]
    cases hf : List.find? (fun kv => kv.1 == id) st.pending_approvals <;>
      simp [hf]
  · unfold approve
    cases h : pendingLookup st id <;> simp

/-- Witness for C5: approving an unknown id on the initial registry mutates
nothing. -/
theorem c5_approve_iff_pending_and_frame_witness :
    (approve emptyManager "x" "user").1 = false ∧
    (approve emptyManager "x" "user").2 = emptyManager :=
  ⟨by decide,
    (c5_approve_iff_pending_and_frame emptyManager "x" "user").2.2 (by decide)⟩

/-- C4: every registry operation (`create_approval_request`, `approve`,
`reject`) preserves well-formedness; the history only grows by appending (so
entries already in history are never mutated or removed); after the
operation no identifier is in both collections; and identifiers already in
history are never pending again. -/
theorem c4_registry_invariant (st : ManagerState) (o : RegOp) (h : Wf st) :
    Wf (applyOp st o) ∧
    (∃ tail, (applyOp st o).approval_history = st.approval_history ++ tail) ∧
    (∀ id, ¬(id ∈ pendingKeys (applyOp st o) ∧
        ∃ r ∈ (applyOp st o).approval_history, r.request_id = id)) ∧
    (∀ r ∈ st.approval_history, r.request_id ∉ pendingKeys (applyOp st o)) := by
  have hwf := wf_applyOp h o
  have hpre : ∃ tail,
      (applyOp st o).approval_history = st.approval_history ++ tail := by
    cases o with
    | createReq op p d tk =>
      exact ⟨[], by simp [applyOp, create_approval_request]⟩
    | approveReq id u =>
      simp only [applyOp]
      cases hp : pendingLookup st id with
      | none => unfold approve; rw [hp]; exact ⟨[], by simp⟩
      | some a => rw [approve_of_pending hp]; exact ⟨_, rfl⟩
    | rejectReq id reason u =>
      simp only [applyOp]
      cases hp : pendingLookup st id with
      | none => unfold reject; rw [hp]; exact ⟨[], by simp⟩
      | some a => rw [reject_of_pending hp]; exact ⟨_, rfl⟩
  have hdisj : ∀ id, ¬(id ∈ pendingKeys (applyOp st o) ∧
      ∃ r ∈ (applyOp st o).approval_history, r.request_id = id) := by
    intro id hcon
    obtain ⟨hidp, r, hr, hrid⟩ := hcon
    simp only [pendingKeys] at hidp
    obtain ⟨kv, hkv, hkvid⟩ := List.mem_map.mp hidp
    exact hwf.2.2 kv hkv r hr (by rw [hrid, hkvid])
  refine ⟨hwf, hpre, hdisj, ?_⟩
  intro r hr hmem
  obtain ⟨tail, htail⟩ := hpre
  refine hdisj r.request_id ⟨hmem, r, ?_, rfl⟩
  rw [htail]
  exact List.mem_append_left _ hr

/-- Witness for C4 on the initial registry with a concrete operation. -/
theorem c4_registry_invariant_witness :
    Wf emptyManager ∧ Wf (applyOp emptyManager (RegOp.approveReq "x" "user")) :=
  ⟨wf_empty,
    (c4_registry_invariant emptyManager (RegOp.approveReq "x" "user") wf_empty).1⟩

/-- C6: `is_approved id` is false while no successful approval of `id` is
recorded (no approved history entry for `id`), and after a successful
`approve id` it is true and stays true under any further sequence of registry
operations (history entries are never mutated or removed). -/
theorem c6_is_approved_permanent (st : ManagerState) (id : String)
    (h : Wf st) :
    ((∀ r, historyLookup st id = some r → r.status ≠ ApprovalStatus.approved) →
      is_approved st id = false) ∧
    (∀ u, (approve st id u).1 = true →
      ∀ ops, is_approved (runOps (approve st id u).2 ops) id = true) := by
  constructor
  · intro hnr
    unfold is_approved get_approval
    cases hp : pendingLookup st id with
    | some a =>
      have hstat := (pendingLookup_some_wf h hp).2.1
      simp [hstat]
    | none =>
      cases hh : historyLookup st id with
      | none => simp
      | some r =>
        simp only
        exact beq_eq_false_iff_ne.mpr (hnr r hh)
  · intro u happ ops
    cases hp : pendingLookup st id with
    | none =>
      unfold approve at happ
      rw [hp] at happ
      simp at happ
    | some a =>
      have heq := approve_of_pending (u := u) hp
      obtain ⟨hreq, hstat, ⟨k, hk, hkid⟩, hmem, hhist⟩ :=
        pendingLookup_some_wf h hp
      have hp' : pendingLookup (approve st id u).2 id = none := by
        rw [heq]
        unfold pendingLookup
        simp only
        rw [find?_filter_self_none]
        rfl
      have hh' : historyLookup (approve st id u).2 id =
          some { a with
                 status := ApprovalStatus.approved
                 approved_by := some u } := by
        rw [heq]
        unfold historyLookup
        simp only
        have holdnone : st.approval_history.find?
            (fun x => x.request_id == id) = none := by
          rw [List.find?_eq_none]
          intro x hx
          simp only [beq_iff_eq]
          exact hhist x hx
        simp only [List.find?_append, holdnone, Option.none_or]
        simp [List.find?, hreq]
      have hwf' : Wf (approve st id u).2 := wf_approve h
      obtain ⟨-, hp2, hh2⟩ := stable_runOps hwf' hp' hh' ops
      rw [is_approved_of_history hp2 hh2]
      simp

/-- Witness for C6: approve a concrete fresh request and run one more create
operation; the id stays approved. -/
theorem c6_is_approved_permanent_witness :
    Wf (create_approval_request emptyManager "add_comment" [] "" none).2 ∧
    is_approved
      (runOps
        (approve (create_approval_request emptyManager "add_comment" [] "" none).2
          "u" "user").2
        [RegOp.createReq "x" [] "" none]) "u" = true :=
  ⟨wf_create wf_empty,
    (c6_is_approved_permanent
        (create_approval_request emptyManager "add_comment" [] "" none).2
        "u" (wf_create wf_empty)).2 "user" (by decide)
      [RegOp.createReq "x" [] "" none]⟩

/-- C7: round-trip of the action payload.  For each of the five operation
flows, the request minted by the `*_with_approval` function, once approved,
is executed by the matching `execute_*` function with exactly the preview
fields stored at creation time, no matter which registry operations happen
in between (conversation state does not even occur in the executors). -/
theorem c7_roundtrip_stored_payload (st : ManagerState) (h : Wf st) :
    (∀ pk sm ds it asg pri lbs a st1,
      create_ticket_with_approval st pk sm ds it asg pri lbs = (a, st1) →
      ∀ u ops,
        execute_create_ticket (runOps (approve st1 a.request_id u).2 ops)
            a.request_id =
          Except.ok (JiraCall.createTicket
            (pget a.preview "project") (pget a.preview "summary")
            (pget a.preview "description")
            (pgetD a.preview "issue_type" (PVal.str "Task"))
            (if pget a.preview "assignee" ≠ PVal.str "Unassigned" then
              pget a.preview "assignee" else PVal.null)
            (pget a.preview "priority") (pget a.preview "labels")
            (pget a.preview "custom_fields"))) ∧
    (∀ tk sm ds asg stt pri lbs fetched a st1,
      update_ticket_with_approval st tk sm ds asg stt pri lbs fetched = (a, st1) →
      ∀ u ops,
        execute_update_ticket (runOps (approve st1 a.request_id u).2 ops)
            a.request_id =
          Except.ok (JiraCall.updateTicket
            (pget a.preview "ticket_key") (pget a.preview "new_summary")
            (pget a.preview "new_description") (pget a.preview "new_assignee")
            (pget a.preview "new_status") (pget a.preview "new_priority")
            (pget a.preview "new_labels") (pget a.preview "custom_fields"))) ∧
    (∀ tk ts cm fetched a st1,
      transition_ticket_with_approval st tk ts cm fetched = (a, st1) →
      ∀ u ops,
        execute_transition_ticket (runOps (approve st1 a.request_id u).2 ops)
            a.request_id =
          Except.ok (JiraCall.transitionTicket
            (pget a.preview "ticket_key") (pget a.preview "target_status")
            (pget a.preview "comment"))) ∧
    (∀ tk asg fetched a st1,
      assign_ticket_with_approval st tk asg fetched = (a, st1) →
      ∀ u ops,
        execute_assign_ticket (runOps (approve st1 a.request_id u).2 ops)
            a.request_id =
          Except.ok (JiraCall.assignTicket
            (pget a.preview "ticket_key") (pget a.preview "new_assignee"))) ∧
    (∀ tk cb vis a st1,
      add_comment_with_approval st tk cb vis = (a, st1) →
      ∀ u ops,
        execute_add_comment (runOps (approve st1 a.request_id u).2 ops)
            a.request_id =
          Except.ok (JiraCall.addComment
            (pget a.preview "ticket_key") (pget a.preview "comment")
            (pgetD a.preview "visibility" PVal.null))) := by
  refine ⟨?_, ?_, ?_, ?_, ?_⟩
  · intro pk sm ds it asg pri lbs a st1 hc u ops
    obtain ⟨happ, hwf', hp', hh'⟩ := create_then_approve h hc u
    obtain ⟨hwf2, hp2, hh2⟩ := stable_runOps hwf' hp' hh' ops
    exact exec_create_of_approved
      (r := { a with status := ApprovalStatus.approved, approved_by := some u })
      hp2 hh2 rfl
  · intro tk sm ds asg stt pri lbs fetched a st1 hc u ops
    obtain ⟨happ, hwf', hp', hh'⟩ := create_then_approve h hc u
    obtain ⟨hwf2, hp2, hh2⟩ := stable_runOps hwf' hp' hh' ops
    exact exec_update_of_approved
      (r := { a with status := ApprovalStatus.approved, approved_by := some u })
      hp2 hh2 rfl
  · intro tk ts cm fetched a st1 hc u ops
    obtain ⟨happ, hwf', hp', hh'⟩ := create_then_approve h hc u
    obtain ⟨hwf2, hp2, hh2⟩ := stable_runOps hwf' hp' hh' ops
    exact exec_transition_of_approved
      (r := { a with status := ApprovalStatus.approved, approved_by := some u })
      hp2 hh2 rfl
  · intro tk asg fetched a st1 hc u ops
    obtain ⟨happ, hwf', hp', hh'⟩ := create_then_approve h hc u
    obtain ⟨hwf2, hp2, hh2⟩ := stable_runOps hwf' hp' hh' ops
    exact exec_assign_of_approved
      (r := { a with status := ApprovalStatus.approved, approved_by := some u })
      hp2 hh2 rfl
  · intro tk cb vis a st1 hc u ops
    obtain ⟨happ, hwf', hp', hh'⟩ := create_then_approve h hc u
    obtain ⟨hwf2, hp2, hh2⟩ := stable_runOps hwf' hp' hh' ops
    exact exec_comment_of_approved
      (r := { a with status := ApprovalStatus.approved, approved_by := some u })
      hp2 hh2 rfl

/-- Concrete instance of the create flow for the C7 witness. -/
def c7pair : ApprovalRequest × ManagerState :=
  create_ticket_with_approval emptyManager "ESD" "Fix login" "d" "Task"
    none none none

/-- Witness for C7: the create flow at the initial registry executes with the
exact stored payload. -/
theorem c7_roundtrip_stored_payload_witness :
    Wf emptyManager ∧
    execute_create_ticket
        (runOps (approve c7pair.2 c7pair.1.request_id "user").2 [])
        c7pair.1.request_id =
      Except.ok (JiraCall.createTicket (PVal.str "ESD") (PVal.str "Fix login")
        (PVal.str "d") (PVal.str "Task") PVal.null (PVal.str "Medium")
        (PVal.strs []) PVal.null) := by
  refine ⟨wf_empty, ?_⟩
  have hmain := (c7_roundtrip_stored_payload emptyManager wf_empty).1
    "ESD" "Fix login" "d" "Task" none none none c7pair.1 c7pair.2 rfl "user" []
  rw [hmain]
  rfl

/-- C9: when the read-only fetch of current ticket state fails, the update,
transition and assign preview builders still return a pending request built
against an empty current view, registered in the pending collection, and the
request can still be approved and executed. -/
theorem c9_fetch_failure_still_previews (st : ManagerState) (h : Wf st) :
    (∀ tk sm ds asg stt pri lbs e a st1,
      update_ticket_with_approval st tk sm ds asg stt pri lbs
          (Except.error e) = (a, st1) →
      a.status = ApprovalStatus.pending ∧
      pget a.preview "current_summary" = PVal.null ∧
      pendingLookup st1 a.request_id = some a ∧
      ∀ u, (approve st1 a.request_id u).1 = true ∧
        ∃ call, execute_update_ticket (approve st1 a.request_id u).2
          a.request_id = Except.ok call) ∧
    (∀ tk ts cm e a st1,
      transition_ticket_with_approval st tk ts cm (Except.error e) = (a, st1) →
      a.status = ApprovalStatus.pending ∧
      pget a.preview "current_status" = PVal.null ∧
      pendingLookup st1 a.request_id = some a ∧
      ∀ u, (approve st1 a.request_id u).1 = true ∧
        ∃ call, execute_transition_ticket (approve st1 a.request_id u).2
          a.request_id = Except.ok call) ∧
    (∀ tk asg e a st1,
      assign_ticket_with_approval st tk asg (Except.error e) = (a, st1) →
      a.status = ApprovalStatus.pending ∧
      pget a.preview "current_assignee" = PVal.str "Unassigned" ∧
      pendingLookup st1 a.request_id = some a ∧
      ∀ u, (approve st1 a.request_id u).1 = true ∧
        ∃ call, execute_assign_ticket (approve st1 a.request_id u).2
          a.request_id = Except.ok call) := by
  refine ⟨?_, ?_, ?_⟩
  · intro tk sm ds asg stt pri lbs e a st1 hc
    have ha := congrArg Prod.fst hc
    have hst1 := congrArg Prod.snd hc
    simp only at ha hst1
    refine ⟨by rw [← ha]; rfl, by rw [← ha]; rfl, ?_, ?_⟩
    · rw [← ha, ← hst1]
      exact pendingLookup_create_self h
    · intro u
      obtain ⟨happ, hwf', hp', hh'⟩ := create_then_approve h hc u
      exact ⟨happ, _, exec_update_of_approved hp' hh' rfl⟩
  · intro tk ts cm e a st1 hc
    have ha := congrArg Prod.fst hc
    have hst1 := congrArg Prod.snd hc
    simp only at ha hst1
    refine ⟨by rw [← ha]; rfl, by rw [← ha]; rfl, ?_, ?_⟩
    · rw [← ha, ← hst1]
      exact pendingLookup_create_self h
    · intro u
      obtain ⟨happ, hwf', hp', hh'⟩ := create_then_approve h hc u
      exact ⟨happ, _, exec_transition_of_approved hp' hh' rfl⟩
  · intro tk asg e a st1 hc
    have ha := congrArg Prod.fst hc
    have hst1 := congrArg Prod.snd hc
    simp only at ha hst1
    refine ⟨by rw [← ha]; rfl, by rw [← ha]; rfl, ?_, ?_⟩
    · rw [← ha, ← hst1]
      exact pendingLookup_create_self h
    · intro u
      obtain ⟨happ, hwf', hp', hh'⟩ := create_then_approve h hc u
      exact ⟨happ, _, exec_assign_of_approved hp' hh' rfl⟩

/-- Concrete instance of the transition flow for the C9 witness. -/
def c9pair : ApprovalRequest × ManagerState :=
  transition_ticket_with_approval emptyManager (some "ESD-242")
    (some "In Progress") none (Except.error "connection refused")

/-- Witness for C9: a transition preview built under a failed fetch is
pending and still approvable and executable. -/
theorem c9_fetch_failure_still_previews_witness :
    Wf emptyManager ∧
    c9pair.1.status = ApprovalStatus.pending ∧
    pget c9pair.1.preview "current_status" = PVal.null ∧
    (approve c9pair.2 c9pair.1.request_id "user").1 = true := by
  have hmain := ((c9_fetch_failure_still_previews emptyManager wf_empty).2.1
    (some "ESD-242") (some "In Progress") none "connection refused"
    c9pair.1 c9pair.2 rfl)
  exact ⟨wf_empty, hmain.1, hmain.2.1, (hmain.2.2.2 "user").1⟩

theorem unknown_ne_notfound (op : String) :
    ("Unknown operation type: " ++ op) ≠ "Error: No such approved request." := by
  intro hcontra
  have h2 : ("Unknown operation type: " ++ op).data =
      ("Error: No such approved request." : String).data :=
    congrArg String.data hcontra
  rw [String.data_append] at h2
  have h4 := congrArg List.head? h2
  have h5 : List.head? (("Unknown operation type: " : String).data ++ op.data) =
      some 'U' := rfl
  have h6 : List.head? (("Error: No such approved request." : String).data) =
      some 'E' := rfl
  rw [h5, h6] at h4
  simp at h4

/-- C10 (implicit behavior): `execute_approved_action` dispatches the stored
mutating call for any history entry of a known operation type without
checking the request status — in particular a rejected request still issues
the call — and only identifiers absent from the history produce the
"No such approved request" error result. -/
theorem c10_execute_approved_action_ignores_status
    (backend : JiraCall → Except String BackendResult) (st : ManagerState)
    (id : String) :
    (historyLookup st id = none ↔
      execute_approved_action backend st id =
        (none, "Error: No such approved request.")) ∧
    (∀ r, historyLookup st id = some r →
      (r.operation_type = "add_comment" →
        (execute_approved_action backend st id).1 =
          some (JiraCall.addComment (opv r.ticket_key)
            (pget r.preview "comment") PVal.null)) ∧
      (r.operation_type = "transition_ticket" →
        (execute_approved_action backend st id).1 =
          some (JiraCall.transitionTicket (opv r.ticket_key)
            (pget r.preview "target_status") PVal.null)) ∧
      (r.operation_type = "assign_ticket" →
        (execute_approved_action backend st id).1 =
          some (JiraCall.assignTicket (opv r.ticket_key)
            (pget r.preview "assignee"))) ∧
      (r.operation_type = "update_summary" →
        (execute_approved_action backend st id).1 =
          some (JiraCall.updateTicket (opv r.ticket_key)
            (pget r.preview "summary") PVal.null PVal.null PVal.null PVal.null
            PVal.null PVal.null)) ∧
      (r.operation_type = "create_ticket" →
        (execute_approved_action backend st id).1 =
          some (JiraCall.createTicket (pget r.preview "project_key")
            (pget r.preview "summary") (pget r.preview "description")
            (PVal.str "Task") PVal.null PVal.null PVal.null PVal.null))) := by
  constructor
  · constructor
    · intro hh
      unfold execute_approved_action
      rw [hh]
    · intro hres
      cases hh : historyLookup st id with
      | none => rfl
      | some r =>
        exfalso
        unfold execute_approved_action at hres
        rw [hh] at hres
        dsimp only at hres
        by_cases h1 : r.operation_type = "add_comment"
        · rw [if_pos h1] at hres
          cases hb : backend (JiraCall.addComment (opv r.ticket_key)
            (pget r.preview "comment") PVal.null) <;> rw [hb] at hres <;>
            simp at hres
        · rw [if_neg h1] at hres
          by_cases h2 : r.operation_type = "transition_ticket"
          · rw [if_pos h2] at hres
            cases hb : backend (JiraCall.transitionTicket (opv r.ticket_key)
              (pget r.preview "target_status") PVal.null) <;>
              rw [hb] at hres <;> simp at hres
          · rw [if_neg h2] at hres
            by_cases h3 : r.operation_type = "assign_ticket"
            · rw [if_pos h3] at hres
              cases hb : backend (JiraCall.assignTicket (opv r.ticket_key)
                (pget r.preview "assignee")) <;> rw [hb] at hres <;>
                simp at hres
            · rw [if_neg h3] at hres
              by_cases h4 : r.operation_type = "update_summary"
              · rw [if_pos h4] at hres
                cases hb : backend (JiraCall.updateTicket (opv r.ticket_key)
                  (pget r.preview "summary") PVal.null PVal.null PVal.null
                  PVal.null PVal.null PVal.null) <;> rw [hb] at hres <;>
                  simp at hres
              · rw [if_neg h4] at hres
                by_cases h5 : r.operation_type = "create_ticket"
                · rw [if_pos h5] at hres
                  cases hb : backend (JiraCall.createTicket
                    (pget r.preview "project_key") (pget r.preview "summary")
                    (pget r.preview "description") (PVal.str "Task") PVal.null
                    PVal.null PVal.null PVal.null) <;> rw [hb] at hres <;>
                    simp at hres
                · rw [if_neg h5] at hres
                  have hm := congrArg Prod.snd hres
                  simp only at hm
                  exact unknown_ne_notfound r.operation_type hm
  · intro r hh
    refine ⟨?_, ?_, ?_, ?_, ?_⟩ <;> intro hop <;>
      unfold execute_approved_action <;> rw [hh] <;> dsimp only
    · rw [if_pos hop]
      cases backend (JiraCall.addComment (opv r.ticket_key)
        (pget r.preview "comment") PVal.null) <;> rfl
    · have hn1 : r.operation_type ≠ "add_comment" := by rw [hop]; decide
      rw [if_neg hn1, if_pos hop]
      cases backend (JiraCall.transitionTicket (opv r.ticket_key)
        (pget r.preview "target_status") PVal.null) <;> rfl
    · have hn1 : r.operation_type ≠ "add_comment" := by rw [hop]; decide
      have hn2 : r.operation_type ≠ "transition_ticket" := by rw [hop]; decide
      rw [if_neg hn1, if_neg hn2, if_pos hop]
      cases backend (JiraCall.assignTicket (opv r.ticket_key)
        (pget r.preview "assignee")) <;> rfl
    · have hn1 : r.operation_type ≠ "add_comment" := by rw [hop]; decide
      have hn2 : r.operation_type ≠ "transition_ticket" := by rw [hop]; decide
      have hn3 : r.operation_type ≠ "assign_ticket" := by rw [hop]; decide
      rw [if_neg hn1, if_neg hn2, if_neg hn3, if_pos hop]
      cases backend (JiraCall.updateTicket (opv r.ticket_key)
        (pget r.preview "summary") PVal.null PVal.null PVal.null PVal.null
        PVal.null PVal.null) <;> rfl
    · have hn1 : r.operation_type ≠ "add_comment" := by rw [hop]; decide
      have hn2 : r.operation_type ≠ "transition_ticket" := by rw [hop]; decide
      have hn3 : r.operation_type ≠ "assign_ticket" := by rw [hop]; decide
      have hn4 : r.operation_type ≠ "update_summary" := by rw [hop]; decide
      rw [if_neg hn1, if_neg hn2, if_neg hn3, if_neg hn4, if_pos hop]
      cases backend (JiraCall.createTicket (pget r.preview "project_key")
        (pget r.preview "summary") (pget r.preview "description")
        (PVal.str "Task") PVal.null PVal.null PVal.null PVal.null) <;> rfl

/-- A concrete rejected comment request sitting in the history. -/
def c10req : ApprovalRequest :=
  { request_id := "u", operation_type := "add_comment",
    ticket_key := some "ESD-1",
    preview := [("ticket_key", PVal.str "ESD-1"), ("comment", PVal.str "hi"),
      ("visibility", PVal.null)],
    description := "Add comment to ticket ESD-1",
    status := ApprovalStatus.rejected, approved_by := some "user",
    rejection_reason := some "wrong ticket" }

/-- A registry whose history holds only the rejected request above. -/
def c10reg : ManagerState :=
  { pending_approvals := [], approval_history := [c10req], next_id := 1 }

/-- A backend that accepts every call. -/
def okBackend : JiraCall → Except String BackendResult :=
  fun _ => Except.ok (BackendResult.flag true)

/-- Witness for C10: the rejected request still triggers the mutating call. -/
theorem c10_execute_approved_action_ignores_status_witness :
    historyLookup c10reg "u" = some c10req ∧
    c10req.status = ApprovalStatus.rejected ∧
    (execute_approved_action okBackend c10reg "u").1 =
      some (JiraCall.addComment (opv c10req.ticket_key)
        (pget c10req.preview "comment") PVal.null) :=
  ⟨by decide, by decide,
    ((c10_execute_approved_action_ignores_status okBackend c10reg "u").2
      c10req (by decide)).1 (by decide)⟩

/-- A stage outcome that neither touches the registry, nor issues a mutating
call, nor raises. -/
def benign (reg : ManagerState) (r : AgentResult) : Prop :=
  r.2.1 = reg ∧ (∀ c, Effect.jiraMutate c ∉ r.2.2) ∧ ∃ s, r.1 = Except.ok s

/-- A stage outcome that does not touch the registry, issues no mutating
call, and raises only on (re)assign-ticket commands. -/
def writeOk (lm : String) (reg : ManagerState) (r : AgentResult) : Prop :=
  r.2.1 = reg ∧ (∀ c, Effect.jiraMutate c ∉ r.2.2) ∧
  (∀ e, r.1 = Except.error e →
    pyContains lm "assign ticket" = true ∨
    pyContains lm "reassign ticket" = true)

theorem benign_writeOk {lm : String} {reg : ManagerState} {r : AgentResult}
    (h : benign reg r) : writeOk lm reg r := by
  obtain ⟨h1, h2, s, hs⟩ := h
  refine ⟨h1, h2, ?_⟩
  intro e he
  rw [hs] at he
  simp at he

theorem benign_statusStage (env : AgentEnv) (reg : ManagerState)
    (st : AgentState) (lm : String) :
    benign reg (agentStatusStage env reg st lm) := by
  unfold agentStatusStage benign
  dsimp only
  split
  · split
    · exact ⟨rfl, fun c => by simp, _, rfl⟩
    · split
      · exact ⟨rfl, fun c => by simp, _, rfl⟩
      · exact ⟨rfl, fun c => by simp, _, rfl⟩
  · split
    · exact ⟨rfl, fun c => by simp, _, rfl⟩
    · exact ⟨rfl, fun c => by simp, _, rfl⟩

theorem benign_summarizeStage (env : AgentEnv) (reg : ManagerState)
    (st : AgentState) (lm : String) :
    benign reg (agentSummarizeStage env reg st lm) := by
  unfold agentSummarizeStage
  split
  · dsimp only
    split
    · exact ⟨rfl, fun c => by simp, _, rfl⟩
    · exact benign_statusStage env reg st lm
  · exact benign_statusStage env reg st lm

theorem orElse_eq_some {a b : Option AgentResult} {r : AgentResult}
    (h : (a <|> b) = some r) : a = some r ∨ b = some r := by
  cases a with
  | some x => left; simpa using h
  | none => right; simpa using h

theorem getD_writeOk {lm : String} {reg : ManagerState}
    {o : Option AgentResult} {fb : AgentResult}
    (ho : ∀ r, o = some r → writeOk lm reg r) (hfb : writeOk lm reg fb) :
    writeOk lm reg (o.getD fb) := by
  cases o with
  | some r => exact ho r rfl
  | none => exact hfb

theorem writeStage_writeOk (env : AgentEnv) (reg : ManagerState)
    (st : AgentState) (lm : String) (parts? : Option (List String)) :
    writeOk lm reg (agentWriteStage env reg st lm parts?) := by
  unfold agentWriteStage
  dsimp only
  refine getD_writeOk ?_ (benign_writeOk (benign_summarizeStage env reg st lm))
  intro r hr
  rcases orElse_eq_some hr with h | hr
  · -- transition-pattern branch
    rw [Option.map_eq_some'] at h
    obtain ⟨pr, hpr, hf⟩ := h
    rw [← hf]
    exact ⟨rfl, fun c => by simp, fun e he => by simp at he⟩
  rcases orElse_eq_some hr with h | hr
  · -- change status / resume development branch
    split at h
    · split at h
      · split at h
        · injection h with h
          rw [← h]
          exact ⟨rfl, fun c => by simp, fun e he => by simp at he⟩
        · simp at h
      · simp at h
    · simp at h
  rcases orElse_eq_some hr with h | hr
  · -- create branch
    split at h
    · injection h with h
      rw [← h]
      exact ⟨rfl, fun c => by simp, fun e he => by simp at he⟩
    · simp at h
  rcases orElse_eq_some hr with h | hr
  · -- update branch
    split at h
    · injection h with h
      rw [← h]
      exact ⟨rfl, fun c => by simp, fun e he => by simp at he⟩
    · simp at h
  rcases orElse_eq_some hr with h | hr
  · -- transition fallback branch
    split at h
    · injection h with h
      rw [← h]
      exact ⟨rfl, fun c => by simp, fun e he => by simp at he⟩
    · simp at h
  rcases orElse_eq_some hr with h | h
  · -- assign branch; this is the only branch that can raise
    split at h
    · rename_i hassign
      injection h with h
      rw [← h]
      cases parts? with
      | none =>
        refine ⟨rfl, fun c => by simp, fun e he => ?_⟩
        simp only [Bool.and_eq_true, Bool.or_eq_true] at hassign
        exact hassign.1
      | some parts =>
        exact ⟨rfl, fun c => by simp, fun e he => by simp at he⟩
    · simp at h
  · -- comment branch
    split at h
    · injection h with h
      rw [← h]
      exact ⟨rfl, fun c => by simp, fun e he => by simp at he⟩
    · simp at h

theorem rejectStage_facts (env : AgentEnv) (reg : ManagerState)
    (st : AgentState) (lm : String) (parts? : Option (List String)) :
    (∀ c, Effect.jiraMutate c ∉ (agentRejectStage env reg st lm parts?).2.2) ∧
    ((agentRejectStage env reg st lm parts?).2.1 ≠ reg →
      pyContains lm "reject" = true) ∧
    (∀ e, (agentRejectStage env reg st lm parts?).1 = Except.error e →
      pyContains lm "assign ticket" = true ∨
      pyContains lm "reassign ticket" = true) := by
  unfold agentRejectStage
  split
  · rename_i hrej
    dsimp only
    split
    · exact ⟨fun c => by simp, fun hne => hrej, fun e he => by simp at he⟩
    · have hw := writeStage_writeOk env reg st lm (some (pySplit lm))
      exact ⟨hw.2.1, fun hne => absurd hw.1 hne, hw.2.2⟩
  · have hw := writeStage_writeOk env reg st lm parts?
    exact ⟨hw.2.1, fun hne => absurd hw.1 hne, hw.2.2⟩

/-- The external collaborators used by the concrete scenario runs: an empty
status list, a failing read side, and a refusing backend (none of them are
reached in the runs below). -/
def env0 : AgentEnv :=
  { statuses := [], llmReply := "",
    fetch := fun _ => Except.error "unavailable",
    backend := fun _ => Except.error "unavailable",
    ticketsReport := fun _ => "", ticketSummary := fun _ => "" }

/-- A conversation state holding exactly one human message. -/
def oneMsgState (s : String) : AgentState :=
  { messages := [humanMsg s], greeted := false, status_filter := none,
    ticket_to_summarize := none, pending_approval_id := none,
    operation_type := none, target_ticket_key := none, target_status := none,
    assignee := none, comment_body := none }

/-- The scenario input of C2. -/
def c2state : AgentState :=
  oneMsgState
    "create ticket in ESD summary \"Fix login\" description \"Users cannot log in\""

/-- C2 (evidence): on the scenario input the turn registers exactly one
pending approval request with operation type `create_ticket` and issues no
external call, but its preview holds the hardcoded placeholders
project=PROJ, summary="Example Ticket" of `approval_node` (the source's
TODO) instead of the ESD / "Fix login" values of the command. -/
theorem c2_create_preview_hardcoded :
    ((runTurn env0 emptyManager c2state).2.1.pending_approvals.map
      (fun kv => (kv.2.operation_type, kv.2.status, pget kv.2.preview "project",
        pget kv.2.preview "summary"))) =
      [("create_ticket", ApprovalStatus.pending, PVal.str "PROJ",
        PVal.str "Example Ticket")] ∧
    PVal.str "PROJ" ≠ PVal.str "ESD" ∧
    PVal.str "Example Ticket" ≠ PVal.str "Fix login" ∧
    (runTurn env0 emptyManager c2state).2.1.approval_history = [] ∧
    (runTurn env0 emptyManager c2state).2.2 = [] ∧
    ((runTurn env0 emptyManager c2state).1.toOption.map
      (fun s => (s.pending_approval_id, s.operation_type))) =
      some (some "u", some "create_ticket") := by
  refine ⟨by decide, by decide, by decide, by decide, by decide, by decide⟩

/-- A registry holding one pending request whose id is the first fresh id. -/
def c3reg : ManagerState :=
  (create_approval_request emptyManager "add_comment" [] "" none).2

/-- C3 (counterexample): classifying the command `approve u` against a
registry with a pending request `u` mutates the approval registry, refuting
the claim that classification is side-effect-free. -/
theorem c3_classification_counterexample :
    (agent_node env0 c3reg (oneMsgState "approve u")).2.1 ≠ c3reg := by
  decide

/-- C3 (amended): `agent_node` never issues a mutating ticket-system call;
it mutates the approval registry only when the lowercased last message
contains "approve" or "reject" (the decision is applied during
classification); and it raises (NameError on the undefined `parts`
variable) only on assign/reassign-ticket commands.  Read-only status
fetches and LLM calls do occur on the fallback stages. -/
theorem c3_classification_amended (env : AgentEnv) (reg : ManagerState)
    (st : AgentState) :
    (∀ c, Effect.jiraMutate c ∉ (agent_node env reg st).2.2) ∧
    ((agent_node env reg st).2.1 ≠ reg →
      pyContains (lastMsgOf st.messages) "approve" = true ∨
      pyContains (lastMsgOf st.messages) "reject" = true) ∧
    (∀ e, (agent_node env reg st).1 = Except.error e →
      pyContains (lastMsgOf st.messages) "assign ticket" = true ∨
      pyContains (lastMsgOf st.messages) "reassign ticket" = true) := by
  unfold agent_node
  dsimp only
  split
  · exact ⟨fun c => by simp, fun hne => absurd rfl hne, fun e he => by simp at he⟩
  · split
    · rename_i happ
      split
      · split
        · split
          · exact ⟨fun c => by simp, fun hne => Or.inl happ,
              fun e he => by simp at he⟩
          · exact ⟨(rejectStage_facts _ _ _ _ _).1, fun _ => Or.inl happ,
              (rejectStage_facts _ _ _ _ _).2.2⟩
        · exact ⟨fun c => by simp, fun _ => Or.inl happ,
            fun e he => by simp at he⟩
      · exact ⟨(rejectStage_facts _ _ _ _ _).1, fun _ => Or.inl happ,
          (rejectStage_facts _ _ _ _ _).2.2⟩
    · exact ⟨(rejectStage_facts _ _ _ _ _).1,
        fun hne => Or.inr ((rejectStage_facts _ _ _ _ _).2.1 hne),
        (rejectStage_facts _ _ _ _ _).2.2⟩

/-- Witness for the amended C3: at the concrete mutating run the theorem
yields that the message indeed contains an approval command. -/
theorem c3_classification_amended_witness :
    pyContains (lastMsgOf (oneMsgState "approve u").messages) "approve" = true ∨
    pyContains (lastMsgOf (oneMsgState "approve u").messages) "reject" = true :=
  (c3_classification_amended env0 c3reg (oneMsgState "approve u")).2.1
    (by decide)

/-- The execute step of a turn completes successfully: the conversation
state carries an approval id and operation type, the matching `execute_*`
call returns a call descriptor, and the backend accepts it (with a truthy
result for the boolean-returning operations, mirroring the `if success:`
guards of `execute_node`). -/
def executeSucceeds (backend : JiraCall → Except String BackendResult)
    (reg : ManagerState) (st : AgentState) : Bool :=
  match st.pending_approval_id, st.operation_type with
  | some aid, some op =>
    if op = "create_ticket" then
      match execute_create_ticket reg aid with
      | Except.ok call =>
        match backend call with
        | Except.ok _ => true
        | Except.error _ => false
      | Except.error _ => false
    else if op = "update_ticket" then
      match execute_update_ticket reg aid with
      | Except.ok call =>
        match backend call with
        | Except.ok r => bTruthy r
        | Except.error _ => false
      | Except.error _ => false
    else if op = "transition_ticket" then
      match execute_transition_ticket reg aid with
      | Except.ok call =>
        match backend call with
        | Except.ok r => bTruthy r
        | Except.error _ => false
      | Except.error _ => false
    else if op = "assign_ticket" then
      match execute_assign_ticket reg aid with
      | Except.ok call =>
        match backend call with
        | Except.ok r => bTruthy r
        | Except.error _ => false
      | Except.error _ => false
    else if op = "add_comment" then
      match execute_add_comment reg aid with
      | Except.ok call =>
        match backend call with
        | Except.ok r => bTruthy r
        | Except.error _ => false
      | Except.error _ => false
    else false
  | _, _ => false

/-- C8: whenever the execute step completes successfully, the conversation
state returned by `execute_node` has `pending_approval_id` and
`operation_type` cleared, so the approval id cannot be re-executed within
the same conversation. -/
theorem c8_execute_clears_pending
    (backend : JiraCall → Except String BackendResult) (reg : ManagerState)
    (st : AgentState) (h : executeSucceeds backend reg st = true) :
    (execute_node backend reg st).1.pending_approval_id = none ∧
    (execute_node backend reg st).1.operation_type = none := by
  cases hpid : st.pending_approval_id with
  | none => rw [executeSucceeds, hpid] at h; simp at h
  | some aid =>
    cases hop : st.operation_type with
    | none => rw [executeSucceeds, hpid, hop] at h; simp at h
    | some op =>
      rw [executeSucceeds, hpid, hop] at h
      dsimp only at h
      unfold execute_node
      rw [hpid, hop]
      dsimp only
      by_cases hguard :
          (!optTruthy (some aid) || !optTruthy (some op)) = true
      · rw [if_pos hguard]
        simp [clearedWith]
      · rw [if_neg (by simpa using hguard)]
        by_cases h1 : op = "create_ticket"
        · rw [if_pos h1]
          rw [if_pos h1] at h
          cases hec : execute_create_ticket reg aid with
          | error e => simp_all [clearedWith]
          | ok call =>
            cases hb : backend call with
            | error e => simp_all [clearedWith]
            | ok r => simp_all [clearedWith]
        · rw [if_neg h1]
          rw [if_neg h1] at h
          by_cases h2 : op = "update_ticket"
          · rw [if_pos h2]
            rw [if_pos h2] at h
            cases hec : execute_update_ticket reg aid with
            | error e => simp_all [clearedWith]
            | ok call =>
              cases hb : backend call with
              | error e => simp_all [clearedWith]
              | ok r => simp_all [clearedWith]
          · rw [if_neg h2]
            rw [if_neg h2] at h
            by_cases h3 : op = "transition_ticket"
            · rw [if_pos h3]
              rw [if_pos h3] at h
              cases hec : execute_transition_ticket reg aid with
              | error e => simp_all [clearedWith]
              | ok call =>
                cases hb : backend call with
                | error e => simp_all [clearedWith]
                | ok r => simp_all [clearedWith]
            · rw [if_neg h3]
              rw [if_neg h3] at h
              by_cases h4 : op = "assign_ticket"
              · rw [if_pos h4]
                rw [if_pos h4] at h
                cases hec : execute_assign_ticket reg aid with
                | error e => simp_all [clearedWith]
                | ok call =>
                  cases hb : backend call with
                  | error e => simp_all [clearedWith]
                  | ok r => simp_all [clearedWith]
              · rw [if_neg h4]
                rw [if_neg h4] at h
                by_cases h5 : op = "add_comment"
                · rw [if_pos h5]
                  rw [if_pos h5] at h
                  cases hec : execute_add_comment reg aid with
                  | error e => simp_all [clearedWith]
                  | ok call =>
                    cases hb : backend call with
                    | error e => simp_all [clearedWith]
                    | ok r => simp_all [clearedWith]
                · rw [if_neg h5] at h
                  simp at h

/-- A registry holding one approved create request with id `u`. -/
def c8reg : ManagerState :=
  (approve (create_ticket_with_approval emptyManager "ESD" "Fix login" "d"
    "Task" none none none).2 "u" "user").2

/-- A conversation state about to execute the approved create request. -/
def c8state : AgentState :=
  { messages := [], greeted := false, status_filter := none,
    ticket_to_summarize := none, pending_approval_id := some "u",
    operation_type := some "create_ticket", target_ticket_key := none,
    target_status := none, assignee := none, comment_body := none }

/-- A backend that accepts the create call and returns a ticket key. -/
def keyBackend : JiraCall → Except String BackendResult :=
  fun _ => Except.ok (BackendResult.key "ESD-9")

/-- Witness for C8 on a concrete successful create execution. -/
theorem c8_execute_clears_pending_witness :
    executeSucceeds keyBackend c8reg c8state = true ∧
    ((execute_node keyBackend c8reg c8state).1.pending_approval_id = none ∧
     (execute_node keyBackend c8reg c8state).1.operation_type = none) :=
  ⟨by decide, c8_execute_clears_pending keyBackend c8reg c8state (by decide)⟩

end JiraAutomation
